import Mathlib

/-!
# Sketchpad renderer: draw dispatch and scene lifecycle

A shallow embedding of `src/scene/renderer.cpp` (`Renderer::Render`,
`Renderer::Clear`, `Renderer::SetFrontFace`, `Renderer::Attach`,
`Renderer::Detach`) and of `src/scene/factory.h` (`factory::LoadScene`, the inline
function `renderer.cpp` includes and `Attach` calls).

The process-wide statics of `Renderer` become fields of an explicit state
record.  Every call that leaves the renderer (a material call, a draw call,
an OpenGL call, a log line) is appended to a trace, in program order.
-/

namespace Sketchpad

/-! ## Data model -/

/-- An `entt::entity` handle: the `entt::null` sentinel or a live identifier. -/
inductive Entity where
  | null
  | id (n : Nat)
  deriving DecidableEq, Repr

/-- The `ETag` discriminator; `Render` only tells `ETag::Skybox` from the rest. -/
inductive ETag where
  | Skybox
  | other (k : Nat)
  deriving DecidableEq, Repr

/-- The front-face winding selected with `glFrontFace`. -/
inductive Winding where
  | GL_CCW
  | GL_CW
  deriving DecidableEq, Repr

/-- A texture asset, identified by its handle. -/
structure Texture where
  handle : Nat
  deriving DecidableEq, Repr

/-- One entry of a model's property sequence (a `std::variant` in the source);
`std::visit` forwards whatever alternative it holds to `SetUniform`. -/
structure Property where
  payload : Nat
  deriving DecidableEq, Repr

/-- The `Transform` component; `transform` stands for the composed matrix, which
`Render` only forwards to the material. -/
structure Transform where
  transform : Nat
  deriving DecidableEq, Repr

/-- The `Mesh` component: its geometry (the vertex array it draws) and the
`material_id` of the submesh. -/
structure Mesh where
  vao : Nat
  material_id : Nat
  deriving DecidableEq, Repr

/-- The `Model` component: the submeshes in order, and the texture and property
sequences looked up with `operator[]` under a material id. -/
structure Model where
  meshes : List Mesh
  textures : Nat → List Texture
  properties : Nat → List Property

/-- The value handed to `Material::SetUniform`. -/
inductive UniformValue where
  | bool (b : Bool)
  | mat4 (m : Nat)
  | int (i : Int)
  | property (p : Property)
  deriving DecidableEq, Repr

/-- The `Material` class lives outside `renderer.cpp`: its member functions are
parameters of the embedding, acting on an arbitrary material state `M`.
`Bind` reports success as a `bool`, as `Render` tests it. -/
structure MaterialOps (M : Type) where
  SetUniform : Nat → UniformValue → M → M
  SetTexture : Nat → Texture → M → M
  Bind : M → Bool × M
  Unbind : M → M

/-- What the registry stores for one entity: each component is present or absent. -/
structure Components (M : Type) where
  transform : Option Transform
  tag : Option ETag
  material : Option M
  mesh : Option Mesh
  model : Option Model

/-- Calls leaving the renderer, in program order.  Material calls name the entity that
owns the material; a draw call records the winding in effect when it is issued.
The float literals `0.0f` and `1.0f` of `Clear` are written `0` and `1`. -/
inductive Event where
  | SetUniform (owner : Nat) (location : Nat) (value : UniformValue)
  | SetTexture (owner : Nat) (unit : Nat) (tex : Texture)
  | Bind (owner : Nat)
  | Unbind (owner : Nat)
  | Draw (mesh : Mesh) (front : Winding)
  | glFrontFace (w : Winding)
  | CORE_ERROR (e : Entity)
  | glClearColor (r g b a : Nat)
  | glClearDepth (d : Nat)
  | glClearStencil (s : Nat)
  | glClear
  deriving DecidableEq, Repr

/-- The state `Renderer::Render` reads and writes: the registry of the current scene,
the static `render_queue` (front first), the static `depth_prepass`, the OpenGL
front-face winding, the trace of calls so far, and the entries removed from the
queue by `render_queue.pop()`, in order. -/
structure RenderState (M : Type) where
  registry : Nat → Components M
  render_queue : List Entity
  depth_prepass : Bool
  front_face : Winding
  trace : List Event
  popped : List Entity

variable {M : Type}

/-! ## Primitive operations -/

/-- Append one call to the trace. -/
def emit (ev : Event) (s : RenderState M) : RenderState M :=
  { s with trace := s.trace ++ [ev] }

/-- Mutate in place the material owned by entity `n`. -/
def updMaterial (n : Nat) (f : M → M) (s : RenderState M) : RenderState M :=
  { s with registry := fun k =>
      if k = n then { s.registry k with material := (s.registry k).material.map f }
      else s.registry k }

/-- The call `material.SetUniform(location, value)` on the material of entity `n`. -/
def Material_SetUniform (ops : MaterialOps M) (n location : Nat) (value : UniformValue)
    (s : RenderState M) : RenderState M :=
  emit (Event.SetUniform n location value) (updMaterial n (ops.SetUniform location value) s)

/-- The call `material.SetTexture(unit, tex)` on the material of entity `n`. -/
def Material_SetTexture (ops : MaterialOps M) (n unit : Nat) (tex : Texture)
    (s : RenderState M) : RenderState M :=
  emit (Event.SetTexture n unit tex) (updMaterial n (ops.SetTexture unit tex) s)

/-- The call `material.Bind()` on the material of entity `n`: the `bool` it returns and
the state after it. -/
def Material_Bind (ops : MaterialOps M) (n : Nat) (s : RenderState M) :
    Bool × RenderState M :=
  match (s.registry n).material with
  | some m => ((ops.Bind m).1, emit (Event.Bind n) (updMaterial n (fun x => (ops.Bind x).2) s))
  | none => (false, s)

/-- The call `material.Unbind()` on the material of entity `n`. -/
def Material_Unbind (ops : MaterialOps M) (n : Nat) (s : RenderState M) : RenderState M :=
  emit (Event.Unbind n) (updMaterial n ops.Unbind s)

/-- The call `mesh.Draw()`: a draw call under the current front-face winding. -/
def Mesh_Draw (mesh : Mesh) (s : RenderState M) : RenderState M :=
  emit (Event.Draw mesh s.front_face) s

/-- `Renderer::SetFrontFace(bool ccw)`: `glFrontFace(ccw ? GL_CCW : GL_CW)`. -/
def SetFrontFace (ccw : Bool) (s : RenderState M) : RenderState M :=
  let w := if ccw then Winding.GL_CCW else Winding.GL_CW
  emit (Event.glFrontFace w) { s with front_face := w }

/-- `Renderer::Clear()`: clear colour deep blue `(0, 0, 1, 1)`, depth `1`, stencil `0`,
then clear the colour, depth and stencil buffers. -/
def Clear (s : RenderState M) : RenderState M :=
  emit Event.glClear
    (emit (Event.glClearStencil 0)
      (emit (Event.glClearDepth 1)
        (emit (Event.glClearColor 0 0 1 1) s)))

/-- `render_queue.pop()`: remove the front entry, recording it. -/
def pop (s : RenderState M) : RenderState M :=
  match s.render_queue with
  | [] => s
  | e :: rest => { s with render_queue := rest, popped := s.popped ++ [e] }

/-- `static_cast<int>` of a `GLuint`: the 32-bit pattern read as a signed integer. -/
def static_cast_int (u : Nat) : Int :=
  if u % 2 ^ 32 < 2 ^ 31 then ((u % 2 ^ 32 : Nat) : Int) else ((u % 2 ^ 32 : Nat) : Int) - 2 ^ 32

/-- `mesh_group.contains(e)`: the group `group<Mesh>(get<Transform, Tag, Material>)`
holds the entities carrying all four components. -/
def mesh_group_contains (c : Components M) : Bool :=
  c.mesh.isSome && c.transform.isSome && c.tag.isSome && c.material.isSome

/-- `model_group.contains(e)`: the group `group<Model>(get<Transform, Tag, Material>)`
holds the entities carrying all four components. -/
def model_group_contains (c : Components M) : Bool :=
  c.model.isSome && c.transform.isSome && c.tag.isSome && c.material.isSome

/-! ## `Renderer::Render` -/

/-- The mesh branch (lines 175-198) for entity `n` with its `Mesh`, `Transform` and tag. -/
def renderMesh (ops : MaterialOps M) (n : Nat) (mesh : Mesh) (transform : Transform)
    (tag : ETag) (s : RenderState M) : RenderState M :=
  let s := Material_SetUniform ops n 0 (UniformValue.bool s.depth_prepass) s
  let s := Material_SetUniform ops n 1 (UniformValue.mat4 transform.transform) s
  let s := Material_SetUniform ops n 2 (UniformValue.int 0) s
  let r := Material_Bind ops n s
  if r.1 then
    if tag = ETag.Skybox then
      let s := SetFrontFace false r.2
      let s := Mesh_Draw mesh s
      let s := SetFrontFace true s
      Material_Unbind ops n s
    else
      let s := Mesh_Draw mesh r.2
      Material_Unbind ops n s
  else r.2

/-- The loop `for (i = 0; i < n; i++) material.SetTexture(i, textures[i])`. -/
def setTextures (ops : MaterialOps M) (n : Nat) (textures : List Texture)
    (s : RenderState M) : RenderState M :=
  textures.enum.foldl (fun s it => Material_SetTexture ops n it.1 it.2 s) s

/-- The loop `for (i = 0; i < properties.size(); i++)` visiting `properties[i]` with
`material.SetUniform(i + 100, prop)`. -/
def setProperties (ops : MaterialOps M) (n : Nat) (properties : List Property)
    (s : RenderState M) : RenderState M :=
  properties.enum.foldl
    (fun s ip => Material_SetUniform ops n (ip.1 + 100) (UniformValue.property ip.2) s) s

/-- The body of `for (auto& mesh : model.meshes)` (lines 210-239). -/
def renderSubmesh (ops : MaterialOps M) (n : Nat) (model : Model) (mesh : Mesh)
    (s : RenderState M) : RenderState M :=
  let material_id := mesh.material_id
  let textures := model.textures material_id
  let properties := model.properties material_id
  let s := Material_SetUniform ops n 2 (UniformValue.int (static_cast_int material_id)) s
  let s :=
    if textures.length > 0 then setTextures ops n textures s
    else setProperties ops n properties s
  let s := (Material_Bind ops n s).2
  Mesh_Draw mesh s

/-- The model branch (lines 200-243) for entity `n` with its `Model` and `Transform`. -/
def renderModel (ops : MaterialOps M) (n : Nat) (model : Model) (transform : Transform)
    (s : RenderState M) : RenderState M :=
  let s := Material_SetUniform ops n 0 (UniformValue.bool s.depth_prepass) s
  let s := Material_SetUniform ops n 1 (UniformValue.mat4 transform.transform) s
  let s := model.meshes.foldl (fun s mesh => renderSubmesh ops n model mesh s) s
  Material_Unbind ops n s

/-- The non-renderable branch (lines 245-249): log the entity, then `Clear()`. -/
def renderInvalid (e : Entity) (s : RenderState M) : RenderState M :=
  Clear (emit (Event.CORE_ERROR e) s)

/-- The `if / else if / else` on a non-null entity `n` (lines 175-249). -/
def dispatch (ops : MaterialOps M) (n : Nat) (s : RenderState M) : RenderState M :=
  let c := s.registry n
  if mesh_group_contains c then
    match c.mesh, c.transform, c.tag with
    | some mesh, some transform, some tag => renderMesh ops n mesh transform tag s
    | _, _, _ => s
  else if model_group_contains c then
    match c.model, c.transform with
    | some model, some transform => renderModel ops n model transform s
    | _, _ => s
  else renderInvalid (Entity.id n) s

/-- One iteration of `while (!render_queue.empty())` (lines 167-251): a null front
entry is popped at once (`continue`); any other is dispatched, then popped. -/
def renderBody (ops : MaterialOps M) (s : RenderState M) : RenderState M :=
  match s.render_queue with
  | [] => s
  | Entity.null :: _ => pop s
  | Entity.id n :: _ => pop (dispatch ops n s)

/-- The `while` loop, run for at most `fuel` iterations. -/
def renderLoop (ops : MaterialOps M) : Nat → RenderState M → RenderState M
  | 0, s => s
  | fuel + 1, s =>
    if s.render_queue.isEmpty then s else renderLoop ops fuel (renderBody ops s)

/-- `Renderer::Render()`: the loop run until it stops by itself; every iteration removes
one entry, so the length of the queue is fuel enough (`Render_eq_renderLoop`). -/
def Render (ops : MaterialOps M) (s : RenderState M) : RenderState M :=
  renderLoop ops s.render_queue.length s

/-! ## Proof-side vocabulary -/

/-- Replace the queue and the pop record, keeping everything else. -/
def setQ (q p : List Entity) (s : RenderState M) : RenderState M :=
  { s with render_queue := q, popped := p }

/-- What one queue entry does once it is at the front, the pop left out: nothing for
`entt::null`, the dispatch for any other handle. -/
def renderEntry (ops : MaterialOps M) (e : Entity) (s : RenderState M) : RenderState M :=
  match e with
  | Entity.null => s
  | Entity.id n => dispatch ops n s

/-- The entries of a list handled one after the other, front first. -/
def renderEntries (ops : MaterialOps M) (q : List Entity) (s : RenderState M) :
    RenderState M :=
  q.foldl (fun s e => renderEntry ops e s) s

/-- Two registries hold the same components for every entity, up to the internal state
of the materials. -/
def sameShape (r r' : Nat → Components M) : Prop :=
  ∀ k, (r' k).transform = (r k).transform ∧ (r' k).tag = (r k).tag ∧
    (r' k).mesh = (r k).mesh ∧ (r' k).model = (r k).model ∧
    (r' k).material.isSome = (r k).material.isSome

/-- A step that only appends `t` to the trace and touches nothing but material state and,
possibly, the winding. -/
structure Appends (s s' : RenderState M) (t : List Event) : Prop where
  trace_eq : s'.trace = s.trace ++ t
  queue_eq : s'.render_queue = s.render_queue
  popped_eq : s'.popped = s.popped
  prepass_eq : s'.depth_prepass = s.depth_prepass
  shape : sameShape s.registry s'.registry

/-- Is the call a draw call? -/
def Event.isDraw : Event → Bool
  | Event.Draw _ _ => true
  | _ => false

/-- Is the call a material unbind? -/
def Event.isUnbind : Event → Bool
  | Event.Unbind _ => true
  | _ => false

/-- Is the call a material bind? -/
def Event.isBind : Event → Bool
  | Event.Bind _ => true
  | _ => false

/-- Is the call a texture binding? -/
def Event.isSetTexture : Event → Bool
  | Event.SetTexture _ _ _ => true
  | _ => false

/-- Is the call a uniform upload at a location reserved for model properties? -/
def Event.isPropertyUniform : Event → Bool
  | Event.SetUniform _ location _ => decide (100 ≤ location)
  | _ => false

/-- Is the call the upload of the material id (uniform location 2)? -/
def Event.isMaterialId : Event → Bool
  | Event.SetUniform _ location _ => decide (location = 2)
  | _ => false

/-- The mesh a draw call draws. -/
def Event.drawn : Event → Option Mesh
  | Event.Draw mesh _ => some mesh
  | _ => none

/-- A step that appends `t` to the trace and leaves the winding as it was. -/
structure Steady (s s' : RenderState M) (t : List Event) extends Appends s s' t : Prop where
  front_eq : s'.front_face = s.front_face

/-- The calls binding a texture sequence: texture `i` at unit `i`. -/
def textureCalls (n : Nat) (textures : List Texture) : List Event :=
  textures.enum.map (fun it => Event.SetTexture n it.1 it.2)

/-- The calls uploading a property sequence: entry `i` at location `i + 100`. -/
def propertyCalls (n : Nat) (properties : List Property) : List Event :=
  properties.enum.map (fun ip => Event.SetUniform n (ip.1 + 100) (UniformValue.property ip.2))

/-- The texture or property calls of a submesh whose sequences are stored under `key`:
the textures when there are any, the properties otherwise. -/
def uploadCalls (n : Nat) (model : Model) (key : Nat) : List Event :=
  if (model.textures key).length > 0 then textureCalls n (model.textures key)
  else propertyCalls n (model.properties key)

/-- The calls of one submesh of the model of entity `n`, drawn under winding `w`. -/
def submeshCalls (n : Nat) (model : Model) (w : Winding) (mesh : Mesh) : List Event :=
  Event.SetUniform n 2 (UniformValue.int (static_cast_int mesh.material_id)) ::
    (uploadCalls n model mesh.material_id ++ [Event.Bind n, Event.Draw mesh w])

/-- The calls of a model entity `n`, drawn under winding `w`. -/
def modelCalls (n : Nat) (prepass : Bool) (transform : Transform) (model : Model)
    (w : Winding) : List Event :=
  [Event.SetUniform n 0 (UniformValue.bool prepass),
    Event.SetUniform n 1 (UniformValue.mat4 transform.transform)] ++
  model.meshes.flatMap (submeshCalls n model w) ++ [Event.Unbind n]

/-- The three uniform uploads and the `Bind` that open the mesh branch. -/
def meshPrologue (n : Nat) (prepass : Bool) (transform : Transform) : List Event :=
  [Event.SetUniform n 0 (UniformValue.bool prepass),
    Event.SetUniform n 1 (UniformValue.mat4 transform.transform),
    Event.SetUniform n 2 (UniformValue.int 0), Event.Bind n]

/-- The material state on which the mesh branch calls `Bind`: the three uploads applied
to the state `m` found in the registry. -/
def meshBindInput (ops : MaterialOps M) (prepass : Bool) (transform : Transform) (m : M) : M :=
  ops.SetUniform 2 (UniformValue.int 0)
    (ops.SetUniform 1 (UniformValue.mat4 transform.transform)
      (ops.SetUniform 0 (UniformValue.bool prepass) m))

/-- The calls of a mesh entity `n` found under winding `w`, where `ok` is what `Bind`
returned: the prologue, then, only when `Bind` succeeded, the draw and the unbind,
wrapped for a skybox in the two `SetFrontFace` calls. -/
def meshCalls (n : Nat) (prepass : Bool) (transform : Transform) (mesh : Mesh) (tag : ETag)
    (w : Winding) (ok : Bool) : List Event :=
  meshPrologue n prepass transform ++
    (if ok then
      (if tag = ETag.Skybox then
        [Event.glFrontFace Winding.GL_CW, Event.Draw mesh Winding.GL_CW,
          Event.glFrontFace Winding.GL_CCW, Event.Unbind n]
      else [Event.Draw mesh w, Event.Unbind n])
    else [])

/-- The calls of the non-renderable branch for handle `e`. -/
def invalidCalls (e : Entity) : List Event :=
  [Event.CORE_ERROR e, Event.glClearColor 0 0 1 1, Event.glClearDepth 1,
    Event.glClearStencil 0, Event.glClear]

/-! ## Scene lifecycle: `Attach`, `Detach`, `DrawImGui` -/

/-- The scene classes the factory of `scene/factory.h` constructs. -/
inductive SceneClass where
  | Scene
  | Scene01
  | Scene02
  | Scene03
  | Scene04
  | Scene05
  | Scene06
  deriving DecidableEq, Repr

/-- `Window::layer`; `Attach` resets it to `Layer::ImGui`. -/
inductive Layer where
  | Scene
  | ImGui
  deriving DecidableEq, Repr

/-- A scene object on the heap: its dynamic class, its title, how many times `Init()` has
returned on it, and whether `delete` has destroyed it. -/
structure SceneObject where
  cls : SceneClass
  title : String
  inits : Nat
  deleted : Bool
  deriving DecidableEq, Repr

/-- Whether the process still runs: `exited` after `exit(EXIT_FAILURE)`, `undefined` after a
null or dangling scene pointer has been dereferenced. -/
inductive Status where
  | running
  | exited
  | undefined
  deriving DecidableEq, Repr

/-- Calls leaving `Attach`, `Detach`, `LoadScene` and `DrawImGui`, in program order. -/
inductive Call where
  | CORE_TRACE_attaching (title : String)
  | CORE_TRACE_detaching (title : String)
  | Input_Clear
  | Input_ShowCursor
  | Window_Rename (title : String)
  | new_Scene (ptr : Nat) (cls : SceneClass) (title : String)
  | Init (ptr : Nat)
  | delete (ptr : Nat)
  | CORE_ERROR (line : String)
  | cin_get
  | exit_failure
  | ui_NewFrame
  | ui_DrawMenuBar (active_title : String)
  | ui_DrawStatusBar
  | ui_DrawLoadingScreen
  | ui_DrawCrosshair
  | ui_EndFrame
  | OnImGuiRender (ptr : Nat)
  | Clear
  | Flush
  deriving DecidableEq, Repr

/-- The process state the lifecycle functions work on: the scene objects allocated so far
(a pointer is an index), the statics `curr_scene` and `last_scene`, the local
`new_scene` of `Attach`, `Window::layer`, and the calls made so far. -/
structure Process where
  heap : List SceneObject
  curr_scene : Option Nat
  last_scene : Option Nat
  new_scene : Option Nat
  layer : Layer
  status : Status
  calls : List Call
  deriving DecidableEq, Repr

/-- The inline `factory::LoadScene` of `scene/factory.h` (lines 34-46), the one `Attach`
calls: the class constructed for a registered title; `none` stands for the
fall-through to `CORE_ERROR`, `std::cin.get()` and `exit(EXIT_FAILURE)`. -/
def LoadScene (title : String) : Option SceneClass :=
  if title = "Welcome Screen" then some SceneClass.Scene
  else if title = "Tiled Forward Renderer" then some SceneClass.Scene01
  else if title = "Environment Lighting (IBL)" then some SceneClass.Scene02
  else if title = "Disney Principled BSDF" then some SceneClass.Scene03
  else if title = "Compute Shader Cloth Simulation" then some SceneClass.Scene04
  else if title = "Animation and Realtime Shadows" then some SceneClass.Scene05
  else if title = "Bezier Area Lights with LTC" then some SceneClass.Scene06
  else none

/-- The inline `factory::titles` of `scene/factory.h` (lines 24-32). -/
def titles : List String :=
  ["Welcome Screen", "Tiled Forward Renderer", "Environment Lighting (IBL)",
    "Disney Principled BSDF", "Compute Shader Cloth Simulation",
    "Animation and Realtime Shadows", "Bezier Area Lights with LTC"]

/-- The line `CORE_ERROR` writes in `LoadScene` for a title that matched no test: the format
string with the title in place of its only argument. -/
def not_registered_line (title : String) : String :=
  "Scene \"" ++ title ++ "\" is not registered in the factory ..."

/-- The statements of `Attach`, `Detach` and `DrawImGui`, one constructor per source line. -/
inductive Stmt where
  | trace_attaching (title : String)
  | Input_Clear
  | Input_ShowCursor
  | Window_Rename (title : String)
  | layer_ImGui
  | new_scene_LoadScene (title : String)
  | new_scene_Init
  | curr_scene_new_scene
  | trace_detaching
  | last_scene_curr_scene
  | curr_scene_nullptr
  | delete_last_scene
  | last_scene_nullptr
  | ui_NewFrame
  | ui_DrawMenuBar
  | ui_DrawStatusBar
  | Clear
  | ui_DrawLoadingScreen
  | OnImGuiRender_or_DrawCrosshair
  | ui_EndFrame
  | Flush
  deriving DecidableEq, Repr

/-- Log one call. -/
def Process.call (c : Call) (p : Process) : Process :=
  { p with calls := p.calls ++ [c] }

/-- Apply `f` to the object at `ptr`, if there is one. -/
def Process.onObject (ptr : Nat) (f : SceneObject → SceneObject) (p : Process) : Process :=
  match p.heap[ptr]? with
  | some o => { p with heap := p.heap.set ptr (f o) }
  | none => p

/-- The effect of one statement on a running process; the factory function `load` is a
parameter.  A process that has exited, or has run into undefined behaviour, does not
execute anything more. -/
def exec (load : String → Option SceneClass) (st : Stmt) (p : Process) : Process :=
  if p.status ≠ Status.running then p else
  match st with
  | Stmt.trace_attaching title => p.call (Call.CORE_TRACE_attaching title)
  | Stmt.Input_Clear => p.call Call.Input_Clear
  | Stmt.Input_ShowCursor => p.call Call.Input_ShowCursor
  | Stmt.Window_Rename title => p.call (Call.Window_Rename title)
  | Stmt.layer_ImGui => { p with layer := Layer.ImGui }
  | Stmt.new_scene_LoadScene title =>
    match load title with
    | some cls =>
      { p with
        heap := p.heap ++ [⟨cls, title, 0, false⟩]
        new_scene := some p.heap.length
        calls := p.calls ++ [Call.new_Scene p.heap.length cls title] }
    | none =>
      { p with
        status := Status.exited
        calls := p.calls ++ [Call.CORE_ERROR (not_registered_line title), Call.cin_get,
          Call.exit_failure] }
  | Stmt.new_scene_Init =>
    match p.new_scene with
    | some ptr =>
      (p.onObject ptr (fun o => { o with inits := o.inits + 1 })).call (Call.Init ptr)
    | none => { p with status := Status.undefined }
  | Stmt.curr_scene_new_scene => { p with curr_scene := p.new_scene }
  | Stmt.trace_detaching =>
    match p.curr_scene with
    | some ptr =>
      match p.heap[ptr]? with
      | some o => p.call (Call.CORE_TRACE_detaching o.title)
      | none => { p with status := Status.undefined }
    | none => { p with status := Status.undefined }
  | Stmt.last_scene_curr_scene => { p with last_scene := p.curr_scene }
  | Stmt.curr_scene_nullptr => { p with curr_scene := none }
  | Stmt.delete_last_scene =>
    match p.last_scene with
    | some ptr => (p.onObject ptr (fun o => { o with deleted := true })).call (Call.delete ptr)
    | none => p
  | Stmt.last_scene_nullptr => { p with last_scene := none }
  | Stmt.ui_NewFrame => p.call Call.ui_NewFrame
  | Stmt.ui_DrawMenuBar =>
    match p.curr_scene with
    | some ptr =>
      match p.heap[ptr]? with
      | some o => p.call (Call.ui_DrawMenuBar o.title)
      | none => { p with status := Status.undefined }
    | none => { p with status := Status.undefined }
  | Stmt.ui_DrawStatusBar => p.call Call.ui_DrawStatusBar
  | Stmt.Clear => p.call Call.Clear
  | Stmt.ui_DrawLoadingScreen => p.call Call.ui_DrawLoadingScreen
  | Stmt.OnImGuiRender_or_DrawCrosshair =>
    if p.layer = Layer.ImGui then
      match p.curr_scene with
      | some ptr => p.call (Call.OnImGuiRender ptr)
      | none => { p with status := Status.undefined }
    else p.call Call.ui_DrawCrosshair
  | Stmt.ui_EndFrame => p.call Call.ui_EndFrame
  | Stmt.Flush => p.call Call.Flush

/-- Run statements in order. -/
def run (load : String → Option SceneClass) (l : List Stmt) (p : Process) : Process :=
  l.foldl (fun p st => exec load st p) p

/-- The states a run passes through: the state it starts from, then the state after each
statement. -/
def snapshots (load : String → Option SceneClass) : List Stmt → Process → List Process
  | [], p => [p]
  | st :: l, p => p :: snapshots load l (exec load st p)

/-- The body of `Renderer::Attach(title)` (lines 109-122). -/
def Attach_body (title : String) : List Stmt :=
  [Stmt.trace_attaching title, Stmt.Input_Clear, Stmt.Input_ShowCursor,
    Stmt.Window_Rename title, Stmt.layer_ImGui, Stmt.new_scene_LoadScene title,
    Stmt.new_scene_Init, Stmt.curr_scene_new_scene]

/-- The body of `Renderer::Detach()` (lines 126-132). -/
def Detach_body : List Stmt :=
  [Stmt.trace_detaching, Stmt.last_scene_curr_scene, Stmt.curr_scene_nullptr,
    Stmt.delete_last_scene, Stmt.last_scene_nullptr]

/-- The body of `Renderer::DrawImGui()` (lines 260-289), given the title that
`ui::DrawMenuBar` wrote to `next_scene_title` (empty when no switch is asked for). -/
def DrawImGui_body (next_scene_title : String) : List Stmt :=
  [Stmt.ui_NewFrame, Stmt.ui_DrawMenuBar, Stmt.ui_DrawStatusBar] ++
  (if next_scene_title ≠ "" then [Stmt.Clear, Stmt.ui_DrawLoadingScreen]
    else [Stmt.OnImGuiRender_or_DrawCrosshair]) ++
  [Stmt.ui_EndFrame, Stmt.Flush] ++
  (if next_scene_title ≠ "" then Detach_body ++ Attach_body next_scene_title else [])

/-- `Renderer::Attach(title)`. -/
def Attach (load : String → Option SceneClass) (title : String) (p : Process) : Process :=
  run load (Attach_body title) p

/-- `Renderer::Detach()`. -/
def Detach (load : String → Option SceneClass) (p : Process) : Process :=
  run load Detach_body p

/-- `Renderer::DrawImGui()`. -/
def DrawImGui (load : String → Option SceneClass) (next_scene_title : String) (p : Process) :
    Process :=
  run load (DrawImGui_body next_scene_title) p

/-- The current-scene reference is null or points to a scene that is alive and on which
`Init()` has returned exactly once. -/
def currentInitialized (p : Process) : Prop :=
  ∀ ptr, p.curr_scene = some ptr →
    ∃ o, p.heap[ptr]? = some o ∧ o.inits = 1 ∧ o.deleted = false

/-- The process before any scene is attached. -/
def Process.start : Process :=
  ⟨[], none, none, none, Layer.ImGui, Status.running, []⟩

/-- The states at which `Attach` or `Detach` can be entered: the start, and the states they
return in. -/
inductive Reachable (load : String → Option SceneClass) : Process → Prop where
  | start : Reachable load Process.start
  | attach (title : String) (p : Process) : Reachable load p → Reachable load (Attach load title p)
  | detach (p : Process) : Reachable load p → Reachable load (Detach load p)

/-- A running process whose current scene, at pointer 0, is the initialized welcome screen. -/
def welcomeProcess : Process :=
  ⟨[⟨SceneClass.Scene, "Welcome Screen", 1, false⟩], some 0, none, none, Layer.Scene,
    Status.running, []⟩

/-! ## Concrete inputs -/

/-- A material whose whole state is whether `Bind` succeeds on it. -/
def flagOps : MaterialOps Bool where
  SetUniform := fun _ _ m => m
  SetTexture := fun _ _ m => m
  Bind := fun m => (m, m)
  Unbind := fun m => m

/-- A model of two submeshes: the first (material id 0) has one texture, the second
(material id 1) has no texture and two properties. -/
def sampleModel : Model where
  meshes := [⟨10, 0⟩, ⟨11, 1⟩]
  textures := fun k => if k = 0 then [⟨7⟩] else []
  properties := fun k => if k = 1 then [⟨5⟩, ⟨6⟩] else []

/-- A model without submeshes. -/
def emptyModel : Model where
  meshes := []
  textures := fun _ => []
  properties := fun _ => []

/-- A model whose only submesh, at index 0, has material id 1: a texture is stored under
key 0, nothing under key 1 but one property. -/
def sharedModel : Model where
  meshes := [⟨10, 1⟩]
  textures := fun k => if k = 0 then [⟨7⟩] else []
  properties := fun k => if k = 1 then [⟨5⟩] else []

/-- A registry: 0 a mesh entity, 1 a model entity (`sampleModel`), 2 a skybox mesh entity,
3 a mesh entity whose material does not bind, 4 an entity carrying both a `Mesh` and a
`Model`, 5 a model entity without submeshes, 6 a model entity with `sharedModel`;
any other handle carries no component. -/
def sampleRegistry : Nat → Components Bool
  | 0 => ⟨some ⟨3⟩, some (ETag.other 0), some true, some ⟨1, 0⟩, none⟩
  | 1 => ⟨some ⟨4⟩, some (ETag.other 0), some true, none, some sampleModel⟩
  | 2 => ⟨some ⟨5⟩, some ETag.Skybox, some true, some ⟨2, 0⟩, none⟩
  | 3 => ⟨some ⟨6⟩, some (ETag.other 0), some false, some ⟨3, 0⟩, none⟩
  | 4 => ⟨some ⟨7⟩, some (ETag.other 0), some true, some ⟨4, 0⟩, some sampleModel⟩
  | 5 => ⟨some ⟨8⟩, some (ETag.other 0), some true, none, some emptyModel⟩
  | 6 => ⟨some ⟨9⟩, some (ETag.other 0), some true, none, some sharedModel⟩
  | _ => ⟨none, none, none, none, none⟩

/-- The state before `Render` with the given queue and winding, over `sampleRegistry`. -/
def sampleState (q : List Entity) (w : Winding) : RenderState Bool :=
  ⟨sampleRegistry, q, false, w, [], []⟩

/-! ## Frame lemmas for the primitive operations -/

theorem sameShape_refl (r : Nat → Components M) : sameShape r r :=
  fun _ => ⟨rfl, rfl, rfl, rfl, rfl⟩

theorem sameShape_trans {r₁ r₂ r₃ : Nat → Components M}
    (h₁ : sameShape r₁ r₂) (h₂ : sameShape r₂ r₃) : sameShape r₁ r₃ := by
  intro k
  obtain ⟨a₁, a₂, a₃, a₄, a₅⟩ := h₁ k
  obtain ⟨b₁, b₂, b₃, b₄, b₅⟩ := h₂ k
  exact ⟨b₁.trans a₁, b₂.trans a₂, b₃.trans a₃, b₄.trans a₄, b₅.trans a₅⟩

theorem sameShape_updMaterial (n : Nat) (f : M → M) (s : RenderState M) :
    sameShape s.registry (updMaterial n f s).registry := by
  intro k
  by_cases h : k = n
  · simp [updMaterial, h]
  · simp [updMaterial, h]

theorem Appends.nil (s : RenderState M) : Appends s s [] :=
  ⟨by simp, rfl, rfl, rfl, sameShape_refl _⟩

theorem Appends.seq {s₁ s₂ s₃ : RenderState M} {t u : List Event}
    (h₁ : Appends s₁ s₂ t) (h₂ : Appends s₂ s₃ u) : Appends s₁ s₃ (t ++ u) :=
  ⟨by rw [h₂.trace_eq, h₁.trace_eq, List.append_assoc],
   h₂.queue_eq.trans h₁.queue_eq, h₂.popped_eq.trans h₁.popped_eq,
   h₂.prepass_eq.trans h₁.prepass_eq, sameShape_trans h₁.shape h₂.shape⟩

theorem Appends.relabel {s s' : RenderState M} {t u : List Event}
    (h : Appends s s' t) (e : t = u) : Appends s s' u := e ▸ h

theorem appends_SetUniform (ops : MaterialOps M) (n location : Nat) (v : UniformValue)
    (s : RenderState M) :
    Appends s (Material_SetUniform ops n location v s) [Event.SetUniform n location v] :=
  ⟨rfl, rfl, rfl, rfl, sameShape_updMaterial _ _ _⟩

theorem appends_SetTexture (ops : MaterialOps M) (n unit : Nat) (tex : Texture)
    (s : RenderState M) :
    Appends s (Material_SetTexture ops n unit tex s) [Event.SetTexture n unit tex] :=
  ⟨rfl, rfl, rfl, rfl, sameShape_updMaterial _ _ _⟩

theorem appends_Unbind (ops : MaterialOps M) (n : Nat) (s : RenderState M) :
    Appends s (Material_Unbind ops n s) [Event.Unbind n] :=
  ⟨rfl, rfl, rfl, rfl, sameShape_updMaterial _ _ _⟩

theorem appends_Bind (ops : MaterialOps M) (n : Nat) (s : RenderState M)
    (h : (s.registry n).material.isSome = true) :
    Appends s (Material_Bind ops n s).2 [Event.Bind n] := by
  obtain ⟨m, hm⟩ := Option.isSome_iff_exists.mp h
  simp only [Material_Bind, hm]
  exact ⟨rfl, rfl, rfl, rfl, sameShape_updMaterial _ _ _⟩

theorem appends_Draw (mesh : Mesh) (s : RenderState M) :
    Appends s (Mesh_Draw mesh s) [Event.Draw mesh s.front_face] :=
  ⟨rfl, rfl, rfl, rfl, sameShape_refl _⟩

theorem appends_SetFrontFace (ccw : Bool) (s : RenderState M) :
    Appends s (SetFrontFace ccw s)
      [Event.glFrontFace (if ccw then Winding.GL_CCW else Winding.GL_CW)] :=
  ⟨rfl, rfl, rfl, rfl, sameShape_refl _⟩

theorem appends_Clear (s : RenderState M) :
    Appends s (Clear s)
      [Event.glClearColor 0 0 1 1, Event.glClearDepth 1, Event.glClearStencil 0,
        Event.glClear] :=
  ⟨by simp [Clear, emit], rfl, rfl, rfl, sameShape_refl _⟩

theorem Steady.idle (s : RenderState M) : Steady s s [] :=
  ⟨Appends.nil s, rfl⟩

theorem Steady.next {s₁ s₂ s₃ : RenderState M} {t u : List Event}
    (h₁ : Steady s₁ s₂ t) (h₂ : Steady s₂ s₃ u) : Steady s₁ s₃ (t ++ u) :=
  ⟨h₁.toAppends.seq h₂.toAppends, h₂.front_eq.trans h₁.front_eq⟩

theorem Steady.retag {s s' : RenderState M} {t u : List Event}
    (h : Steady s s' t) (e : t = u) : Steady s s' u := e ▸ h

theorem Appends.material_isSome {s s' : RenderState M} {t : List Event}
    (h : Appends s s' t) (n : Nat) (hm : (s.registry n).material.isSome = true) :
    (s'.registry n).material.isSome = true :=
  (h.shape n).2.2.2.2.trans hm

theorem steady_SetUniform (ops : MaterialOps M) (n location : Nat) (v : UniformValue)
    (s : RenderState M) :
    Steady s (Material_SetUniform ops n location v s) [Event.SetUniform n location v] :=
  ⟨appends_SetUniform ops n location v s, rfl⟩

theorem steady_SetTexture (ops : MaterialOps M) (n unit : Nat) (tex : Texture)
    (s : RenderState M) :
    Steady s (Material_SetTexture ops n unit tex s) [Event.SetTexture n unit tex] :=
  ⟨appends_SetTexture ops n unit tex s, rfl⟩

theorem steady_Unbind (ops : MaterialOps M) (n : Nat) (s : RenderState M) :
    Steady s (Material_Unbind ops n s) [Event.Unbind n] :=
  ⟨appends_Unbind ops n s, rfl⟩

theorem steady_Bind (ops : MaterialOps M) (n : Nat) (s : RenderState M)
    (h : (s.registry n).material.isSome = true) :
    Steady s (Material_Bind ops n s).2 [Event.Bind n] := by
  refine ⟨appends_Bind ops n s h, ?_⟩
  obtain ⟨m, hm⟩ := Option.isSome_iff_exists.mp h
  simp only [Material_Bind, hm]
  rfl

theorem steady_Draw (mesh : Mesh) (s : RenderState M) :
    Steady s (Mesh_Draw mesh s) [Event.Draw mesh s.front_face] :=
  ⟨appends_Draw mesh s, rfl⟩

theorem steady_Clear (s : RenderState M) : Steady s (Clear s)
    [Event.glClearColor 0 0 1 1, Event.glClearDepth 1, Event.glClearStencil 0,
      Event.glClear] :=
  ⟨appends_Clear s, rfl⟩

/-- A left fold of steady steps is steady, and appends the calls of its steps in order. -/
theorem steady_foldl {α : Type} (f : RenderState M → α → RenderState M) (g : α → List Event)
    (P : RenderState M → Prop)
    (hP : ∀ s a, P s → P (f s a))
    (hf : ∀ s a, P s → Steady s (f s a) (g a)) :
    ∀ (l : List α) (s : RenderState M), P s → Steady s (l.foldl f s) (l.flatMap g) := by
  intro l
  induction l with
  | nil => intro s _; exact Steady.idle s
  | cons a l ih =>
    intro s hs
    have h := (hf s a hs).next (ih (f s a) (hP s a hs))
    simpa [List.flatMap_cons] using h

theorem flatMap_singleton_eq_map {α β : Type} (g : α → β) (l : List α) :
    l.flatMap (fun a => [g a]) = l.map g := by
  induction l with
  | nil => rfl
  | cons a l ih => simp [List.flatMap_cons, ih]

theorem steady_setTextures (ops : MaterialOps M) (n : Nat) (textures : List Texture)
    (s : RenderState M) :
    Steady s (setTextures ops n textures s) (textureCalls n textures) := by
  have h := steady_foldl (fun s (it : Nat × Texture) => Material_SetTexture ops n it.1 it.2 s)
    (fun it => [Event.SetTexture n it.1 it.2]) (fun _ => True) (fun _ _ _ => trivial)
    (fun s it _ => steady_SetTexture ops n it.1 it.2 s) textures.enum s trivial
  exact h.retag (flatMap_singleton_eq_map _ _)

theorem steady_setProperties (ops : MaterialOps M) (n : Nat) (properties : List Property)
    (s : RenderState M) :
    Steady s (setProperties ops n properties s) (propertyCalls n properties) := by
  have h := steady_foldl
    (fun s (ip : Nat × Property) =>
      Material_SetUniform ops n (ip.1 + 100) (UniformValue.property ip.2) s)
    (fun ip => [Event.SetUniform n (ip.1 + 100) (UniformValue.property ip.2)])
    (fun _ => True) (fun _ _ _ => trivial)
    (fun s ip _ => steady_SetUniform ops n (ip.1 + 100) (UniformValue.property ip.2) s)
    properties.enum s trivial
  exact h.retag (flatMap_singleton_eq_map _ _)

/-- The loop body of the model branch appends exactly `submeshCalls`. -/
theorem steady_renderSubmesh (ops : MaterialOps M) (n : Nat) (model : Model) (mesh : Mesh)
    (s : RenderState M) (hm : (s.registry n).material.isSome = true) :
    Steady s (renderSubmesh ops n model mesh s) (submeshCalls n model s.front_face mesh) := by
  have h₁ := steady_SetUniform ops n 2 (UniformValue.int (static_cast_int mesh.material_id)) s
  have hup : ∀ s₁ : RenderState M,
      Steady s₁ (if (model.textures mesh.material_id).length > 0
          then setTextures ops n (model.textures mesh.material_id) s₁
          else setProperties ops n (model.properties mesh.material_id) s₁)
        (uploadCalls n model mesh.material_id) := by
    intro s₁
    unfold uploadCalls
    split
    · exact steady_setTextures ops n _ s₁
    · exact steady_setProperties ops n _ s₁
  have h₂ := h₁.next (hup _)
  have h₃ := h₂.next (steady_Bind ops n _ (h₂.toAppends.material_isSome n hm))
  have h₄ := h₃.next (steady_Draw mesh _)
  rw [h₃.front_eq] at h₄
  exact h₄.retag (by simp [submeshCalls])

/-- The model branch appends exactly `modelCalls`. -/
theorem steady_renderModel (ops : MaterialOps M) (n : Nat) (model : Model)
    (transform : Transform) (s : RenderState M)
    (hm : (s.registry n).material.isSome = true) :
    Steady s (renderModel ops n model transform s)
      (modelCalls n s.depth_prepass transform model s.front_face) := by
  have h₁ := steady_SetUniform ops n 0 (UniformValue.bool s.depth_prepass) s
  have h₂ := h₁.next (steady_SetUniform ops n 1 (UniformValue.mat4 transform.transform) _)
  have hloop := steady_foldl (fun s mesh => renderSubmesh ops n model mesh s)
    (submeshCalls n model s.front_face)
    (fun x => (x.registry n).material.isSome = true ∧ x.front_face = s.front_face)
    (fun x mesh hx =>
      ⟨(steady_renderSubmesh ops n model mesh x hx.1).toAppends.material_isSome n hx.1,
        (steady_renderSubmesh ops n model mesh x hx.1).front_eq.trans hx.2⟩)
    (fun x mesh hx => hx.2 ▸ steady_renderSubmesh ops n model mesh x hx.1)
    model.meshes _ ⟨h₂.toAppends.material_isSome n hm, h₂.front_eq⟩
  have h₃ := (h₂.next hloop).next (steady_Unbind ops n _)
  exact h₃.retag (by simp [modelCalls])

/-- The non-renderable branch appends exactly `invalidCalls`. -/
theorem steady_renderInvalid (e : Entity) (s : RenderState M) :
    Steady s (renderInvalid e s) (invalidCalls e) :=
  ⟨⟨by simp [renderInvalid, Clear, emit, invalidCalls], rfl, rfl, rfl, sameShape_refl _⟩, rfl⟩

theorem registry_after_prologue (ops : MaterialOps M) (n : Nat) (transform : Transform)
    (s : RenderState M) (m : M) (hm : (s.registry n).material = some m) :
    ((Material_SetUniform ops n 2 (UniformValue.int 0)
      (Material_SetUniform ops n 1 (UniformValue.mat4 transform.transform)
        (Material_SetUniform ops n 0 (UniformValue.bool s.depth_prepass) s))).registry n).material
      = some (meshBindInput ops s.depth_prepass transform m) := by
  simp [Material_SetUniform, updMaterial, emit, hm, meshBindInput]

theorem Material_Bind_fst (ops : MaterialOps M) (n : Nat) (s : RenderState M) (m : M)
    (hm : (s.registry n).material = some m) :
    (Material_Bind ops n s).1 = (ops.Bind m).1 := by
  simp [Material_Bind, hm]

/-- The mesh branch appends exactly `meshCalls`, with `ok` the result of `Bind` on the
material state reached after the three uploads. -/
theorem appends_renderMesh (ops : MaterialOps M) (n : Nat) (mesh : Mesh)
    (transform : Transform) (tag : ETag) (s : RenderState M) (m : M)
    (hm : (s.registry n).material = some m) :
    Appends s (renderMesh ops n mesh transform tag s)
      (meshCalls n s.depth_prepass transform mesh tag s.front_face
        (ops.Bind (meshBindInput ops s.depth_prepass transform m)).1) := by
  have hs : (s.registry n).material.isSome = true := by simp [hm]
  have h₁ := steady_SetUniform ops n 0 (UniformValue.bool s.depth_prepass) s
  have h₂ := h₁.next (steady_SetUniform ops n 1 (UniformValue.mat4 transform.transform) _)
  have h₃ := h₂.next (steady_SetUniform ops n 2 (UniformValue.int 0) _)
  have h₄ := h₃.next (steady_Bind ops n _ (h₃.toAppends.material_isSome n hs))
  have hb := Material_Bind_fst ops n _ _ (registry_after_prologue ops n transform s m hm)
  unfold renderMesh
  simp only [hb]
  unfold meshCalls
  cases hok : (ops.Bind (meshBindInput ops s.depth_prepass transform m)).1
  · simpa [meshPrologue] using h₄.toAppends
  · by_cases htag : tag = ETag.Skybox
    · have h₅ := h₄.toAppends.seq (appends_SetFrontFace false _)
      have h₆ := h₅.seq (appends_Draw mesh _)
      have h₇ := h₆.seq (appends_SetFrontFace true _)
      have h₈ := h₇.seq (appends_Unbind ops n _)
      simpa [meshPrologue, htag, SetFrontFace, emit] using h₈
    · have h₅ := h₄.next (steady_Draw mesh _)
      have h₆ := h₅.next (steady_Unbind ops n _)
      rw [h₄.front_eq] at h₆
      simpa [meshPrologue, htag] using h₆.toAppends

/-- The winding the mesh branch leaves behind: counter-clockwise after a skybox whose
material bound, the winding it found otherwise. -/
theorem front_face_renderMesh (ops : MaterialOps M) (n : Nat) (mesh : Mesh)
    (transform : Transform) (tag : ETag) (s : RenderState M) (m : M)
    (hm : (s.registry n).material = some m) :
    (renderMesh ops n mesh transform tag s).front_face =
      if (ops.Bind (meshBindInput ops s.depth_prepass transform m)).1 = true ∧ tag = ETag.Skybox
      then Winding.GL_CCW else s.front_face := by
  have hs : (s.registry n).material.isSome = true := by simp [hm]
  have h₁ := steady_SetUniform ops n 0 (UniformValue.bool s.depth_prepass) s
  have h₂ := h₁.next (steady_SetUniform ops n 1 (UniformValue.mat4 transform.transform) _)
  have h₃ := h₂.next (steady_SetUniform ops n 2 (UniformValue.int 0) _)
  have h₄ := h₃.next (steady_Bind ops n _ (h₃.toAppends.material_isSome n hs))
  have hb := Material_Bind_fst ops n _ _ (registry_after_prologue ops n transform s m hm)
  unfold renderMesh
  simp only [hb]
  cases hok : (ops.Bind (meshBindInput ops s.depth_prepass transform m)).1
  · simpa using h₄.front_eq
  · by_cases htag : tag = ETag.Skybox
    · simp [htag, Material_Unbind, SetFrontFace, emit, updMaterial]
    · have h₅ := h₄.next (steady_Draw mesh _)
      have h₆ := h₅.next (steady_Unbind ops n _)
      simpa [htag] using h₆.front_eq

/-! ## The dispatch -/

theorem dispatch_mesh (ops : MaterialOps M) (n : Nat) (s : RenderState M)
    {mesh : Mesh} {transform : Transform} {tag : ETag}
    (hmesh : (s.registry n).mesh = some mesh)
    (htr : (s.registry n).transform = some transform)
    (htag : (s.registry n).tag = some tag)
    (hmat : (s.registry n).material.isSome = true) :
    dispatch ops n s = renderMesh ops n mesh transform tag s := by
  simp [dispatch, mesh_group_contains, hmesh, htr, htag, hmat]

theorem dispatch_model (ops : MaterialOps M) (n : Nat) (s : RenderState M)
    {model : Model} {transform : Transform}
    (hnot : mesh_group_contains (s.registry n) = false)
    (hin : model_group_contains (s.registry n) = true)
    (hmodel : (s.registry n).model = some model)
    (htr : (s.registry n).transform = some transform) :
    dispatch ops n s = renderModel ops n model transform s := by
  simp [dispatch, hnot, hin, hmodel, htr]

theorem dispatch_invalid (ops : MaterialOps M) (n : Nat) (s : RenderState M)
    (hnot : mesh_group_contains (s.registry n) = false)
    (hnot' : model_group_contains (s.registry n) = false) :
    dispatch ops n s = renderInvalid (Entity.id n) s := by
  simp [dispatch, hnot, hnot']

/-- Whatever the entity, the dispatch only appends calls to the trace: the queue, the
pop record, `depth_prepass` and the components of every entity stay as they were. -/
theorem appends_dispatch (ops : MaterialOps M) (n : Nat) (s : RenderState M) :
    ∃ t, Appends s (dispatch ops n s) t := by
  by_cases h₁ : mesh_group_contains (s.registry n) = true
  · have h := h₁
    simp only [mesh_group_contains, Bool.and_eq_true, Option.isSome_iff_exists] at h
    obtain ⟨⟨⟨⟨mesh, hmesh⟩, ⟨tr, htr⟩⟩, ⟨tag, htag⟩⟩, ⟨m, hm⟩⟩ := h
    rw [dispatch_mesh ops n s hmesh htr htag (by simp [hm])]
    exact ⟨_, appends_renderMesh ops n mesh tr tag s m hm⟩
  · have h₁' : mesh_group_contains (s.registry n) = false := by simpa using h₁
    by_cases h₂ : model_group_contains (s.registry n) = true
    · have h := h₂
      simp only [model_group_contains, Bool.and_eq_true, Option.isSome_iff_exists] at h
      obtain ⟨⟨⟨⟨model, hmodel⟩, ⟨tr, htr⟩⟩, _⟩, ⟨m, hm⟩⟩ := h
      rw [dispatch_model ops n s h₁' h₂ hmodel htr]
      exact ⟨_, (steady_renderModel ops n model tr s (by simp [hm])).toAppends⟩
    · have h₂' : model_group_contains (s.registry n) = false := by simpa using h₂
      rw [dispatch_invalid ops n s h₁' h₂']
      exact ⟨_, (steady_renderInvalid _ s).toAppends⟩

theorem appends_renderEntry (ops : MaterialOps M) (e : Entity) (s : RenderState M) :
    ∃ t, Appends s (renderEntry ops e s) t := by
  cases e with
  | null => exact ⟨[], Appends.nil s⟩
  | id n => exact appends_dispatch ops n s

theorem appends_renderEntries (ops : MaterialOps M) (q : List Entity) :
    ∀ s : RenderState M, ∃ t, Appends s (renderEntries ops q s) t := by
  induction q with
  | nil => intro s; exact ⟨[], Appends.nil s⟩
  | cons e q ih =>
    intro s
    obtain ⟨t, ht⟩ := appends_renderEntry ops e s
    obtain ⟨u, hu⟩ := ih (renderEntry ops e s)
    exact ⟨t ++ u, ht.seq hu⟩

/-! ## The dispatch does not look at the queue -/

theorem setQ_setQ (q p q' p' : List Entity) (s : RenderState M) :
    setQ q p (setQ q' p' s) = setQ q p s := rfl

theorem setQ_self (s : RenderState M) : setQ s.render_queue s.popped s = s := rfl

theorem Material_Bind_setQ (ops : MaterialOps M) (n : Nat) (q p : List Entity)
    (s : RenderState M) :
    Material_Bind ops n (setQ q p s) =
      ((Material_Bind ops n s).1, setQ q p (Material_Bind ops n s).2) := by
  cases h : (s.registry n).material with
  | none =>
    have h' : ((setQ q p s).registry n).material = none := h
    simp [Material_Bind, h, h']
  | some m =>
    have h' : ((setQ q p s).registry n).material = some m := h
    simp only [Material_Bind, h, h']
    rfl

theorem foldl_setQ {α : Type} (f : RenderState M → α → RenderState M) (q p : List Entity)
    (hf : ∀ s a, f (setQ q p s) a = setQ q p (f s a)) :
    ∀ (l : List α) (s : RenderState M), l.foldl f (setQ q p s) = setQ q p (l.foldl f s) := by
  intro l
  induction l with
  | nil => intro s; rfl
  | cons a l ih => intro s; simp only [List.foldl_cons, hf, ih]

theorem renderSubmesh_setQ (ops : MaterialOps M) (n : Nat) (model : Model) (mesh : Mesh)
    (q p : List Entity) (s : RenderState M) :
    renderSubmesh ops n model mesh (setQ q p s) = setQ q p (renderSubmesh ops n model mesh s) := by
  have h₁ : Material_SetUniform ops n 2 (UniformValue.int (static_cast_int mesh.material_id))
      (setQ q p s) = setQ q p (Material_SetUniform ops n 2
        (UniformValue.int (static_cast_int mesh.material_id)) s) := rfl
  have h₂ : ∀ x : RenderState M, setTextures ops n (model.textures mesh.material_id) (setQ q p x)
      = setQ q p (setTextures ops n (model.textures mesh.material_id) x) :=
    fun x => foldl_setQ _ q p (fun _ _ => rfl) _ x
  have h₃ : ∀ x : RenderState M,
      setProperties ops n (model.properties mesh.material_id) (setQ q p x)
      = setQ q p (setProperties ops n (model.properties mesh.material_id) x) :=
    fun x => foldl_setQ _ q p (fun _ _ => rfl) _ x
  unfold renderSubmesh
  simp only [h₁]
  split
  · rw [h₂, Material_Bind_setQ]; rfl
  · rw [h₃, Material_Bind_setQ]; rfl

theorem renderModel_setQ (ops : MaterialOps M) (n : Nat) (model : Model)
    (transform : Transform) (q p : List Entity) (s : RenderState M) :
    renderModel ops n model transform (setQ q p s)
      = setQ q p (renderModel ops n model transform s) := by
  have h₁ : Material_SetUniform ops n 1 (UniformValue.mat4 transform.transform)
      (Material_SetUniform ops n 0 (UniformValue.bool (setQ q p s).depth_prepass) (setQ q p s))
      = setQ q p (Material_SetUniform ops n 1 (UniformValue.mat4 transform.transform)
        (Material_SetUniform ops n 0 (UniformValue.bool s.depth_prepass) s)) := rfl
  unfold renderModel
  simp only [h₁]
  rw [foldl_setQ _ q p (fun x mesh => renderSubmesh_setQ ops n model mesh q p x)]
  rfl

theorem renderMesh_setQ (ops : MaterialOps M) (n : Nat) (mesh : Mesh)
    (transform : Transform) (tag : ETag) (q p : List Entity) (s : RenderState M) :
    renderMesh ops n mesh transform tag (setQ q p s)
      = setQ q p (renderMesh ops n mesh transform tag s) := by
  have h₁ : Material_SetUniform ops n 2 (UniformValue.int 0)
      (Material_SetUniform ops n 1 (UniformValue.mat4 transform.transform)
      (Material_SetUniform ops n 0 (UniformValue.bool (setQ q p s).depth_prepass) (setQ q p s)))
      = setQ q p (Material_SetUniform ops n 2 (UniformValue.int 0)
        (Material_SetUniform ops n 1 (UniformValue.mat4 transform.transform)
        (Material_SetUniform ops n 0 (UniformValue.bool s.depth_prepass) s))) := rfl
  unfold renderMesh
  simp only [h₁, Material_Bind_setQ]
  split
  · split <;> rfl
  · rfl

theorem dispatch_setQ (ops : MaterialOps M) (n : Nat) (q p : List Entity)
    (s : RenderState M) :
    dispatch ops n (setQ q p s) = setQ q p (dispatch ops n s) := by
  have hr : (setQ q p s).registry = s.registry := rfl
  unfold dispatch
  simp only [hr]
  split
  · split
    · exact renderMesh_setQ ops n _ _ _ q p s
    · rfl
  · split
    · split
      · exact renderModel_setQ ops n _ _ q p s
      · rfl
    · rfl

theorem renderEntry_setQ (ops : MaterialOps M) (e : Entity) (q p : List Entity)
    (s : RenderState M) :
    renderEntry ops e (setQ q p s) = setQ q p (renderEntry ops e s) := by
  cases e with
  | null => rfl
  | id n => exact dispatch_setQ ops n q p s

theorem renderEntries_setQ (ops : MaterialOps M) (l q p : List Entity) (s : RenderState M) :
    renderEntries ops l (setQ q p s) = setQ q p (renderEntries ops l s) :=
  foldl_setQ _ q p (fun x e => renderEntry_setQ ops e q p x) l s

/-! ## The loop -/

/-- One iteration on a non-empty queue: the front entry is handled and popped. -/
theorem renderBody_cons (ops : MaterialOps M) (s : RenderState M) (e : Entity)
    (rest : List Entity) (hq : s.render_queue = e :: rest) :
    renderBody ops s = setQ rest (s.popped ++ [e]) (renderEntry ops e s) := by
  cases e with
  | null =>
    simp only [renderBody, hq, pop, renderEntry]
    rfl
  | id n =>
    obtain ⟨t, ht⟩ := appends_dispatch ops n s
    have hq' : (dispatch ops n s).render_queue = Entity.id n :: rest := ht.queue_eq.trans hq
    simp only [renderBody, hq, pop, hq', renderEntry, ht.popped_eq]
    rfl

/-- The loop with `fuel` iterations handles the first `fuel` entries of the queue. -/
theorem renderLoop_eq (ops : MaterialOps M) :
    ∀ (fuel : Nat) (s : RenderState M),
      renderLoop ops fuel s =
        setQ (s.render_queue.drop fuel) (s.popped ++ s.render_queue.take fuel)
          (renderEntries ops (s.render_queue.take fuel) s) := by
  intro fuel
  induction fuel with
  | zero => intro s; simp [renderLoop, renderEntries, setQ]
  | succ k ih =>
    intro s
    cases hq : s.render_queue with
    | nil =>
      have : s = setQ [] s.popped s := by rw [← hq]; rfl
      simp [renderLoop, hq, renderEntries]
      exact this
    | cons e rest =>
      simp only [renderLoop, hq, List.isEmpty_cons, Bool.false_eq_true, if_false]
      rw [ih, renderBody_cons ops s e rest hq]
      simp only [List.drop_succ_cons, List.take_succ_cons]
      have hq₂ : (setQ rest (s.popped ++ [e]) (renderEntry ops e s)).render_queue = rest := rfl
      have hp₂ : (setQ rest (s.popped ++ [e]) (renderEntry ops e s)).popped = s.popped ++ [e] :=
        rfl
      rw [hq₂, hp₂, renderEntries_setQ, setQ_setQ]
      simp [renderEntries]

/-- `Render` handles every entry of the queue, front first, and pops each of them. -/
theorem Render_eq (ops : MaterialOps M) (s : RenderState M) :
    Render ops s = setQ [] (s.popped ++ s.render_queue) (renderEntries ops s.render_queue s) := by
  unfold Render
  rw [renderLoop_eq]
  simp

/-- More fuel than the queue is long changes nothing: the loop has stopped by itself. -/
theorem Render_eq_renderLoop (ops : MaterialOps M) (s : RenderState M) (fuel : Nat)
    (h : s.render_queue.length ≤ fuel) : renderLoop ops fuel s = Render ops s := by
  rw [Render_eq, renderLoop_eq, List.drop_of_length_le h, List.take_of_length_le h]

theorem renderEntries_append (ops : MaterialOps M) (l₁ l₂ : List Entity) (s : RenderState M) :
    renderEntries ops (l₁ ++ l₂) s = renderEntries ops l₂ (renderEntries ops l₁ s) := by
  simp [renderEntries, List.foldl_append]

/-- With the queue `pre ++ rest`, after `pre.length` iterations `rest` is what is left. -/
theorem renderLoop_split (ops : MaterialOps M) (s : RenderState M) (pre rest : List Entity)
    (hq : s.render_queue = pre ++ rest) :
    renderLoop ops pre.length s = setQ rest (s.popped ++ pre) (renderEntries ops pre s) := by
  rw [renderLoop_eq, hq]
  simp

/-- Stopping the loop after `k` iterations and running `Render` from there is `Render`. -/
theorem Render_renderLoop (ops : MaterialOps M) (k : Nat) (s : RenderState M) :
    Render ops (renderLoop ops k s) = Render ops s := by
  have hsplit := renderLoop_split ops s (s.render_queue.take k) (s.render_queue.drop k)
    (List.take_append_drop k s.render_queue).symm
  by_cases hk : k ≤ s.render_queue.length
  · have hlen : (s.render_queue.take k).length = k := by simp [hk]
    rw [hlen] at hsplit
    rw [hsplit, Render_eq, Render_eq]
    have h₁ : (setQ (List.drop k s.render_queue) (s.popped ++ List.take k s.render_queue)
        (renderEntries ops (List.take k s.render_queue) s)).render_queue
        = List.drop k s.render_queue := rfl
    have h₂ : (setQ (List.drop k s.render_queue) (s.popped ++ List.take k s.render_queue)
        (renderEntries ops (List.take k s.render_queue) s)).popped
        = s.popped ++ List.take k s.render_queue := rfl
    rw [h₁, h₂, renderEntries_setQ, setQ_setQ, ← renderEntries_append, List.append_assoc,
      List.take_append_drop]
  · have hk' : s.render_queue.length ≤ k := by omega
    have h := Render_eq_renderLoop ops s k hk'
    rw [h, Render_eq, Render_eq]
    simp [setQ, renderEntries]

/-- The facts tying one iteration to `Render`: the front entry is popped, the loop goes
on from the state the iteration leaves, and the trace only grows. -/
theorem front_entry (ops : MaterialOps M) (s : RenderState M) (e : Entity)
    (post : List Entity) (hq : s.render_queue = e :: post) :
    (renderBody ops s).render_queue = post ∧
    (renderBody ops s).popped = s.popped ++ [e] ∧
    Render ops (renderBody ops s) = Render ops s ∧
    ∃ t, (Render ops s).trace = (renderBody ops s).trace ++ t := by
  have hb := renderBody_cons ops s e post hq
  have h1 : renderLoop ops 1 s = renderBody ops s := by
    simp [renderLoop, hq]
  have hR : Render ops (renderBody ops s) = Render ops s := by
    rw [← h1]; exact Render_renderLoop ops 1 s
  refine ⟨by rw [hb]; rfl, by rw [hb]; rfl, hR, ?_⟩
  rw [← hR, Render_eq]
  obtain ⟨t, ht⟩ := appends_renderEntries ops (renderBody ops s).render_queue (renderBody ops s)
  exact ⟨t, ht.trace_eq⟩

theorem renderEntries_filter_null (ops : MaterialOps M) (q : List Entity) :
    ∀ s : RenderState M,
      renderEntries ops (q.filter (fun e => decide (e ≠ Entity.null))) s
        = renderEntries ops q s := by
  induction q with
  | nil => intro s; rfl
  | cons e q ih =>
    intro s
    cases e with
    | null => simpa [renderEntries, renderEntry] using ih s
    | id n => simpa [renderEntries, renderEntry] using ih (dispatch ops n s)

theorem Render_queue (ops : MaterialOps M) (s : RenderState M) :
    (Render ops s).render_queue = [] := by
  rw [Render_eq]; rfl

theorem Render_popped (ops : MaterialOps M) (s : RenderState M) :
    (Render ops s).popped = s.popped ++ s.render_queue := by
  rw [Render_eq]; rfl

theorem mesh_group_contains_congr {r r' : Nat → Components M} (h : sameShape r r') (k : Nat) :
    mesh_group_contains (r' k) = mesh_group_contains (r k) := by
  obtain ⟨h₁, h₂, h₃, _, h₅⟩ := h k
  simp [mesh_group_contains, h₁, h₂, h₃, h₅]

theorem model_group_contains_congr {r r' : Nat → Components M} (h : sameShape r r') (k : Nat) :
    model_group_contains (r' k) = model_group_contains (r k) := by
  obtain ⟨h₁, h₂, _, h₄, h₅⟩ := h k
  simp [model_group_contains, h₁, h₂, h₄, h₅]

/-! ## What the call lists contain -/

theorem mem_uploadCalls {n : Nat} {model : Model} {key : Nat} {ev : Event}
    (h : ev ∈ uploadCalls n model key) :
    (∃ i t, ev = Event.SetTexture n i t) ∨
      ∃ i p, ev = Event.SetUniform n (i + 100) (UniformValue.property p) := by
  unfold uploadCalls at h
  split at h
  · simp only [textureCalls, List.mem_map] at h
    obtain ⟨it, _, rfl⟩ := h
    exact Or.inl ⟨it.1, it.2, rfl⟩
  · simp only [propertyCalls, List.mem_map] at h
    obtain ⟨ip, _, rfl⟩ := h
    exact Or.inr ⟨ip.1, ip.2, rfl⟩

theorem filter_uploadCalls (p : Event → Bool) (n : Nat) (model : Model) (key : Nat)
    (h₁ : ∀ i t, p (Event.SetTexture n i t) = false)
    (h₂ : ∀ i q, p (Event.SetUniform n (i + 100) (UniformValue.property q)) = false) :
    (uploadCalls n model key).filter p = [] := by
  rw [List.filter_eq_nil_iff]
  intro ev hev
  rcases mem_uploadCalls hev with ⟨i, t, rfl⟩ | ⟨i, q, rfl⟩
  · simp [h₁]
  · simp [h₂]

theorem drawn_uploadCalls (n : Nat) (model : Model) (key : Nat) :
    (uploadCalls n model key).filterMap Event.drawn = [] := by
  rw [List.filterMap_eq_nil_iff]
  intro ev hev
  rcases mem_uploadCalls hev with ⟨i, t, rfl⟩ | ⟨i, q, rfl⟩ <;> rfl

theorem drawn_submeshCalls (n : Nat) (model : Model) (w : Winding) (mesh : Mesh) :
    (submeshCalls n model w mesh).filterMap Event.drawn = [mesh] := by
  simp [submeshCalls, List.filterMap_append, drawn_uploadCalls, Event.drawn]

theorem drawn_flatMap_submeshCalls (n : Nat) (model : Model) (w : Winding) (l : List Mesh) :
    (l.flatMap (submeshCalls n model w)).filterMap Event.drawn = l := by
  induction l with
  | nil => rfl
  | cons a l ih =>
    rw [List.flatMap_cons, List.filterMap_append, drawn_submeshCalls, ih]
    rfl

theorem unbind_flatMap_submeshCalls (n : Nat) (model : Model) (w : Winding) (l : List Mesh) :
    (l.flatMap (submeshCalls n model w)).filter Event.isUnbind = [] := by
  induction l with
  | nil => rfl
  | cons a l ih =>
    rw [List.flatMap_cons, List.filter_append, ih]
    simp [submeshCalls, List.filter_append, Event.isUnbind,
      filter_uploadCalls Event.isUnbind n model a.material_id (fun _ _ => rfl) (fun _ _ => rfl)]

theorem key_flatMap_submeshCalls (n : Nat) (model : Model) (w : Winding) (l : List Mesh) :
    (l.flatMap (submeshCalls n model w)).filter
        (fun ev => Event.isDraw ev || Event.isMaterialId ev)
      = l.flatMap (fun mesh =>
          [Event.SetUniform n 2 (UniformValue.int (static_cast_int mesh.material_id)),
            Event.Draw mesh w]) := by
  induction l with
  | nil => rfl
  | cons a l ih =>
    rw [List.flatMap_cons, List.filter_append, ih, List.flatMap_cons]
    have hu := filter_uploadCalls (fun ev => Event.isDraw ev || Event.isMaterialId ev) n model
      a.material_id (fun _ _ => rfl) (fun i q => by simp [Event.isDraw, Event.isMaterialId])
    rw [submeshCalls, List.filter_cons, List.filter_append, hu]
    simp [Event.isDraw, Event.isMaterialId]

/-- One iteration with a model entity at the front (in the model group, not in the mesh
group): the calls appended are `modelCalls`, and the winding is left alone. -/
theorem renderBody_model (ops : MaterialOps M) (s : RenderState M) (n : Nat)
    (post : List Entity) (model : Model) (transform : Transform)
    (hq : s.render_queue = Entity.id n :: post)
    (hnot : mesh_group_contains (s.registry n) = false)
    (hin : model_group_contains (s.registry n) = true)
    (hmodel : (s.registry n).model = some model)
    (htr : (s.registry n).transform = some transform) :
    (renderBody ops s).trace =
      s.trace ++ modelCalls n s.depth_prepass transform model s.front_face ∧
    (renderBody ops s).front_face = s.front_face := by
  have hm : (s.registry n).material.isSome = true := by
    simp only [model_group_contains, Bool.and_eq_true] at hin
    exact hin.2
  have h := steady_renderModel ops n model transform s hm
  rw [renderBody_cons ops s _ post hq]
  simp only [renderEntry, dispatch_model ops n s hnot hin hmodel htr]
  exact ⟨h.trace_eq, h.front_eq⟩

/-- The state in which an entry reaches the front, after the entries `pre` before it. -/
theorem reach_entry (ops : MaterialOps M) (s : RenderState M) (pre rest : List Entity)
    (hq : s.render_queue = pre ++ rest) :
    (renderLoop ops pre.length s).render_queue = rest ∧
    (renderLoop ops pre.length s).depth_prepass = s.depth_prepass ∧
    sameShape s.registry (renderLoop ops pre.length s).registry ∧
    ∃ t, (renderLoop ops pre.length s).trace = s.trace ++ t := by
  obtain ⟨t, ht⟩ := appends_renderEntries ops pre s
  rw [renderLoop_split ops s pre rest hq]
  exact ⟨rfl, ht.prepass_eq, ht.shape, t, ht.trace_eq⟩

/-! ## Claims on the render queue -/

/-- C1. `Render` stops by itself and drains the queue: whatever the queue holds and whatever
the registry, the queue is empty afterwards, the entries popped are exactly the queued
entries, each once and in queue order, and any larger number of loop iterations gives
the same final state. -/
theorem C1_render_drains_queue (ops : MaterialOps M) (s : RenderState M) :
    (Render ops s).render_queue = [] ∧
    (Render ops s).popped = s.popped ++ s.render_queue ∧
    ∀ fuel, s.render_queue.length ≤ fuel → renderLoop ops fuel s = Render ops s := by
  exact ⟨Render_queue ops s, Render_popped ops s,
    fun fuel h => Render_eq_renderLoop ops s fuel h⟩

/-- C7. A non-null entity at the front of the queue that is in neither group gets one
error line naming it and a `Clear()` to the diagnostic colour, and nothing else: no
draw, no bind or unbind, registry and winding untouched.  The entry is popped, and
`Render` goes on with the entries behind it from exactly that state. -/
theorem C7_non_renderable_entity (ops : MaterialOps M) (s : RenderState M) (n : Nat)
    (post : List Entity)
    (hq : s.render_queue = Entity.id n :: post)
    (hmesh : mesh_group_contains (s.registry n) = false)
    (hmodel : model_group_contains (s.registry n) = false) :
    renderBody ops s =
      { s with
        render_queue := post
        popped := s.popped ++ [Entity.id n]
        trace := s.trace ++ [Event.CORE_ERROR (Entity.id n), Event.glClearColor 0 0 1 1,
          Event.glClearDepth 1, Event.glClearStencil 0, Event.glClear] } ∧
    Render ops s = Render ops (renderBody ops s) ∧
    (Render ops (renderBody ops s)).render_queue = [] ∧
    (Render ops s).popped = s.popped ++ Entity.id n :: post := by
  have hf := front_entry ops s (Entity.id n) post hq
  refine ⟨?_, hf.2.2.1.symm, Render_queue ops _, ?_⟩
  · rw [renderBody_cons ops s _ post hq]
    simp only [renderEntry, dispatch_invalid ops n s hmesh hmodel]
    simp [renderInvalid, Clear, emit, setQ]
  · rw [Render_popped ops s, hq]

/-- C8. Null entries are invisible: `Render` on a queue and `Render` on the same queue with
every `entt::null` entry removed produce the same trace (no call of any kind, no error
line), the same registry and the same winding; a null entry at the front is only popped. -/
theorem C8_null_entries_are_skipped (ops : MaterialOps M) (s : RenderState M)
    (post : List Entity) :
    (Render ops s).trace =
      (Render ops { s with
        render_queue := s.render_queue.filter (fun e => decide (e ≠ Entity.null)) }).trace ∧
    (Render ops s).registry =
      (Render ops { s with
        render_queue := s.render_queue.filter (fun e => decide (e ≠ Entity.null)) }).registry ∧
    (Render ops s).front_face =
      (Render ops { s with
        render_queue := s.render_queue.filter (fun e => decide (e ≠ Entity.null)) }).front_face ∧
    renderBody ops { s with render_queue := Entity.null :: post } =
      { s with render_queue := post, popped := s.popped ++ [Entity.null] } := by
  have h : renderEntries ops (s.render_queue.filter (fun e => decide (e ≠ Entity.null)))
      (setQ (s.render_queue.filter (fun e => decide (e ≠ Entity.null))) s.popped s)
      = setQ (s.render_queue.filter (fun e => decide (e ≠ Entity.null))) s.popped
        (renderEntries ops s.render_queue s) := by
    rw [renderEntries_setQ, renderEntries_filter_null]
  have h' : Render ops { s with
      render_queue := s.render_queue.filter (fun e => decide (e ≠ Entity.null)) }
      = setQ [] (s.popped ++ s.render_queue.filter (fun e => decide (e ≠ Entity.null)))
        (renderEntries ops s.render_queue s) := by
    rw [Render_eq]
    show setQ [] _ (renderEntries ops _ (setQ _ s.popped s)) = _
    rw [h]
    rfl
  rw [h', Render_eq]
  exact ⟨rfl, rfl, rfl, rfl⟩

/-! ## Claims on the model branch -/

/-- C2, refuted as stated: entity 4 of `sampleRegistry` carries `Model`, `Transform`, `Tag`
and `Material`, its model has two submeshes, yet `Render` issues a single draw call
for it, the one of its `Mesh` component: the mesh branch is tested first. -/
theorem C2_counterexample :
    model_group_contains (sampleRegistry 4) = true ∧
    (sampleRegistry 4).model.map (fun m => m.meshes.length) = some 2 ∧
    (Render flagOps (sampleState [Entity.id 4] Winding.GL_CCW)).trace.filterMap Event.drawn
      = [⟨4, 0⟩] := by
  decide

/-- C2, amended.  Let entity `n` be in the model group and not in the mesh group, queued
after the entries `pre` and before the entries `post`.  When it reaches the front, one
iteration appends `modelCalls` to the trace: the draw calls among them are the
submeshes of the model, one each and in the model's order; keeping only the draw calls
and the uploads at location 2, each draw is preceded by the upload of that submesh's
material id (converted by `static_cast<int>`).  These calls come after every call of the
entries in `pre` and before every call of the entries in `post`. -/
theorem C2_model_draws_per_submesh (ops : MaterialOps M) (s : RenderState M)
    (pre post : List Entity) (n : Nat) (model : Model) (transform : Transform)
    (hq : s.render_queue = pre ++ Entity.id n :: post)
    (hnot : mesh_group_contains (s.registry n) = false)
    (hin : model_group_contains (s.registry n) = true)
    (hmodel : (s.registry n).model = some model)
    (htr : (s.registry n).transform = some transform) :
    (renderLoop ops pre.length s).render_queue = Entity.id n :: post ∧
    (∃ t₀, (renderLoop ops pre.length s).trace = s.trace ++ t₀) ∧
    (renderBody ops (renderLoop ops pre.length s)).trace =
      (renderLoop ops pre.length s).trace ++
        modelCalls n s.depth_prepass transform model (renderLoop ops pre.length s).front_face ∧
    (modelCalls n s.depth_prepass transform model
        (renderLoop ops pre.length s).front_face).filterMap Event.drawn = model.meshes ∧
    ((modelCalls n s.depth_prepass transform model
        (renderLoop ops pre.length s).front_face).filter Event.isDraw).length
      = model.meshes.length ∧
    (modelCalls n s.depth_prepass transform model
        (renderLoop ops pre.length s).front_face).filter
        (fun ev => Event.isDraw ev || Event.isMaterialId ev)
      = model.meshes.flatMap (fun mesh =>
          [Event.SetUniform n 2 (UniformValue.int (static_cast_int mesh.material_id)),
            Event.Draw mesh (renderLoop ops pre.length s).front_face]) ∧
    (renderBody ops (renderLoop ops pre.length s)).render_queue = post ∧
    Render ops (renderBody ops (renderLoop ops pre.length s)) = Render ops s ∧
    ∃ t, (Render ops s).trace = (renderBody ops (renderLoop ops pre.length s)).trace ++ t := by
  obtain ⟨h₁, h₂, h₃, h₄⟩ := reach_entry ops s pre (Entity.id n :: post) hq
  have hnot' := (mesh_group_contains_congr h₃ n).trans hnot
  have hin' := (model_group_contains_congr h₃ n).trans hin
  have hmodel' := (h₃ n).2.2.2.1.trans hmodel
  have htr' := (h₃ n).1.trans htr
  have hb := renderBody_model ops _ n post model transform h₁ hnot' hin' hmodel' htr'
  have hf := front_entry ops _ (Entity.id n) post h₁
  rw [h₂] at hb
  have hR : Render ops (renderLoop ops pre.length s) = Render ops s := Render_renderLoop ops _ s
  have hdrawn : ∀ w, (modelCalls n s.depth_prepass transform model w).filterMap Event.drawn
      = model.meshes := by
    intro w
    simp [modelCalls, List.filterMap_append, drawn_flatMap_submeshCalls, Event.drawn]
  have hcount : ∀ w, ((modelCalls n s.depth_prepass transform model w).filter
      Event.isDraw).length = model.meshes.length := by
    intro w
    have h := key_flatMap_submeshCalls n model w model.meshes
    have h' : (model.meshes.flatMap (submeshCalls n model w)).filter Event.isDraw
        = model.meshes.map (fun mesh => Event.Draw mesh w) := by
      have := congrArg (List.filter Event.isDraw) h
      rw [List.filter_filter] at this
      have e : (fun a => (Event.isDraw a && (Event.isDraw a || Event.isMaterialId a)))
          = Event.isDraw := by
        funext a; cases a <;> simp [Event.isDraw]
      rw [e] at this
      rw [this, List.filter_flatMap, ← flatMap_singleton_eq_map]
      simp [Event.isDraw]
    simp [modelCalls, List.filter_append, h', Event.isDraw]
  refine ⟨h₁, h₄, hb.1, hdrawn _, hcount _, ?_, hf.1, hf.2.2.1.trans hR, ?_⟩
  · rw [modelCalls, List.filter_append, List.filter_append, key_flatMap_submeshCalls]
    simp [Event.isDraw, Event.isMaterialId]
  · obtain ⟨t, ht⟩ := hf.2.2.2
    exact ⟨t, by rw [← hR]; exact ht⟩

/-- C2 at a concrete queue: mesh entity 0, a null entry, then model entity 1 with the two
submeshes of `sampleModel`; the draws of entity 1 are its two submeshes, in order. -/
theorem C2_model_draws_per_submesh_witness :
    (renderBody flagOps (renderLoop flagOps 2
        (sampleState [Entity.id 0, Entity.null, Entity.id 1] Winding.GL_CCW))).trace
      = (renderLoop flagOps 2
          (sampleState [Entity.id 0, Entity.null, Entity.id 1] Winding.GL_CCW)).trace ++
        modelCalls 1 false ⟨4⟩ sampleModel Winding.GL_CCW ∧
    (modelCalls 1 false ⟨4⟩ sampleModel Winding.GL_CCW).filterMap Event.drawn
      = [⟨10, 0⟩, ⟨11, 1⟩] :=
  have h := C2_model_draws_per_submesh flagOps
    (sampleState [Entity.id 0, Entity.null, Entity.id 1] Winding.GL_CCW)
    [Entity.id 0, Entity.null] [] 1 sampleModel ⟨4⟩ rfl rfl rfl rfl rfl
  ⟨h.2.2.1, h.2.2.2.1⟩

/-- C4, refuted as stated: entity 5 of `sampleRegistry` is a model entity whose model has no
submesh; `Render` issues no draw call for it and still one material unbind. -/
theorem C4_counterexample :
    model_group_contains (sampleRegistry 5) = true ∧
    mesh_group_contains (sampleRegistry 5) = false ∧
    (sampleRegistry 5).model.map (fun m => m.meshes.length) = some 0 ∧
    (Render flagOps (sampleState [Entity.id 5] Winding.GL_CCW)).trace.filter Event.isDraw = [] ∧
    (Render flagOps (sampleState [Entity.id 5] Winding.GL_CCW)).trace.filter Event.isUnbind
      = [Event.Unbind 5] := by
  decide

/-- C4, amended.  For a model entity at the front of the queue (in the model group, not in
the mesh group), whatever the number of submeshes, zero included, the calls of the
entry end with the material unbind and hold no other unbind: exactly one, after every
draw call of the entry.  A model with no submesh gets no draw call and that one unbind.
The entry is then popped and its calls stay in the trace `Render` ends with. -/
theorem C4_model_unbinds_once (ops : MaterialOps M) (s : RenderState M) (n : Nat)
    (post : List Entity) (model : Model) (transform : Transform)
    (hq : s.render_queue = Entity.id n :: post)
    (hnot : mesh_group_contains (s.registry n) = false)
    (hin : model_group_contains (s.registry n) = true)
    (hmodel : (s.registry n).model = some model)
    (htr : (s.registry n).transform = some transform) :
    (∃ body : List Event,
      (renderBody ops s).trace = s.trace ++ body ++ [Event.Unbind n] ∧
      body.filter Event.isUnbind = [] ∧
      (body ++ [Event.Unbind n]).filter Event.isUnbind = [Event.Unbind n] ∧
      body.filterMap Event.drawn = model.meshes ∧
      (model.meshes = [] → (body ++ [Event.Unbind n]).filter Event.isDraw = [])) ∧
    (renderBody ops s).render_queue = post ∧
    ∃ t, (Render ops s).trace = (renderBody ops s).trace ++ t := by
  have hb := (renderBody_model ops s n post model transform hq hnot hin hmodel htr).1
  have hf := front_entry ops s (Entity.id n) post hq
  refine ⟨?_, hf.1, hf.2.2.2⟩
  have hbody : ([Event.SetUniform n 0 (UniformValue.bool s.depth_prepass),
      Event.SetUniform n 1 (UniformValue.mat4 transform.transform)] ++
      model.meshes.flatMap (submeshCalls n model s.front_face)).filter Event.isUnbind = [] := by
    rw [List.filter_append, unbind_flatMap_submeshCalls]
    simp [Event.isUnbind]
  refine ⟨[Event.SetUniform n 0 (UniformValue.bool s.depth_prepass),
      Event.SetUniform n 1 (UniformValue.mat4 transform.transform)] ++
      model.meshes.flatMap (submeshCalls n model s.front_face), ?_, hbody, ?_, ?_, ?_⟩
  · rw [hb, modelCalls, List.append_assoc, List.append_assoc, List.append_assoc]
  · rw [List.filter_append, hbody]
    simp [Event.isUnbind]
  · rw [List.filterMap_append, drawn_flatMap_submeshCalls]
    simp [Event.drawn]
  · intro hnil
    simp [hnil, Event.isDraw]

/-- C4 at entity 1 of `sampleRegistry` (two submeshes): the entry ends with its only unbind. -/
theorem C4_model_unbinds_once_witness :
    ∃ body : List Event,
      (renderBody flagOps (sampleState [Entity.id 1] Winding.GL_CCW)).trace
        = [] ++ body ++ [Event.Unbind 1] ∧
      body.filter Event.isUnbind = [] ∧
      (body ++ [Event.Unbind 1]).filter Event.isUnbind = [Event.Unbind 1] ∧
      body.filterMap Event.drawn = [⟨10, 0⟩, ⟨11, 1⟩] ∧
      (sampleModel.meshes = [] → (body ++ [Event.Unbind 1]).filter Event.isDraw = []) :=
  (C4_model_unbinds_once flagOps (sampleState [Entity.id 1] Winding.GL_CCW) 1 [] sampleModel ⟨4⟩
    rfl rfl rfl rfl rfl).1

theorem filter_map_of_forall {α β : Type} (p : β → Bool) (f : α → β) (l : List α)
    (h : ∀ x, p (f x) = true) : (l.map f).filter p = l.map f := by
  rw [List.filter_eq_self]
  intro y hy
  obtain ⟨x, _, rfl⟩ := List.mem_map.mp hy
  exact h x

/-- C5, refuted as stated: the only submesh of `sharedModel` has index 0 and material id 1.  The
texture sequence at index 0 is not empty, yet `Render` binds no texture for the submesh
and uploads a property at location 100: the sequences it uses are those stored under
the submesh's material id, here 1. -/
theorem C5_counterexample :
    sharedModel.meshes = [⟨10, 1⟩] ∧
    sharedModel.textures 0 = [⟨7⟩] ∧
    (Render flagOps (sampleState [Entity.id 6] Winding.GL_CCW)).trace.filter Event.isSetTexture
      = [] ∧
    (Render flagOps (sampleState [Entity.id 6] Winding.GL_CCW)).trace.filter
        Event.isPropertyUniform
      = [Event.SetUniform 6 100 (UniformValue.property ⟨5⟩)] := by
  decide

/-- C5, amended.  Let a model entity be at the front of the queue and `mesh` be one of its
submeshes, after the submeshes `a` and before the submeshes `b`.  The calls of the entry
are exactly: the uploads of uniforms 0 and 1, the calls of the submeshes of `a`, the
segment of `mesh`, the calls of the submeshes of `b`, the unbind.  The segment of
`mesh` uses the sequences stored under `mesh.material_id`, one key for both.  When the
texture sequence under that key is not empty, the segment is the upload of the
material id, texture `i` bound at unit `i` for every `i`, `Bind`, the draw: each
texture once, and no uniform at a location from 100 on.  When it is empty, the segment
is the upload of the material id, property `i` uploaded at location `i + 100` for
every `i` in index order, `Bind`, the draw: each property once, and no texture bound.
The calls of the entry stay in the trace `Render` ends with. -/
theorem C5_textures_take_precedence (ops : MaterialOps M) (s : RenderState M) (n : Nat)
    (post : List Entity) (model : Model) (transform : Transform)
    (a b : List Mesh) (mesh : Mesh)
    (hq : s.render_queue = Entity.id n :: post)
    (hnot : mesh_group_contains (s.registry n) = false)
    (hin : model_group_contains (s.registry n) = true)
    (hmodel : (s.registry n).model = some model)
    (htr : (s.registry n).transform = some transform)
    (hmeshes : model.meshes = a ++ mesh :: b) :
    (renderBody ops s).trace =
      s.trace ++
        ([Event.SetUniform n 0 (UniformValue.bool s.depth_prepass),
          Event.SetUniform n 1 (UniformValue.mat4 transform.transform)] ++
        a.flatMap (submeshCalls n model s.front_face)) ++
        submeshCalls n model s.front_face mesh ++
        (b.flatMap (submeshCalls n model s.front_face) ++ [Event.Unbind n]) ∧
    (a.flatMap (submeshCalls n model s.front_face)).filterMap Event.drawn = a ∧
    (b.flatMap (submeshCalls n model s.front_face)).filterMap Event.drawn = b ∧
    (model.textures mesh.material_id ≠ [] →
      submeshCalls n model s.front_face mesh =
        Event.SetUniform n 2 (UniformValue.int (static_cast_int mesh.material_id)) ::
          ((model.textures mesh.material_id).enum.map
              (fun it => Event.SetTexture n it.1 it.2) ++
            [Event.Bind n, Event.Draw mesh s.front_face]) ∧
      (submeshCalls n model s.front_face mesh).filter Event.isSetTexture =
        (model.textures mesh.material_id).enum.map (fun it => Event.SetTexture n it.1 it.2) ∧
      (submeshCalls n model s.front_face mesh).filter Event.isPropertyUniform = []) ∧
    (model.textures mesh.material_id = [] →
      submeshCalls n model s.front_face mesh =
        Event.SetUniform n 2 (UniformValue.int (static_cast_int mesh.material_id)) ::
          ((model.properties mesh.material_id).enum.map
              (fun ip => Event.SetUniform n (ip.1 + 100) (UniformValue.property ip.2)) ++
            [Event.Bind n, Event.Draw mesh s.front_face]) ∧
      (submeshCalls n model s.front_face mesh).filter Event.isPropertyUniform =
        (model.properties mesh.material_id).enum.map
          (fun ip => Event.SetUniform n (ip.1 + 100) (UniformValue.property ip.2)) ∧
      (submeshCalls n model s.front_face mesh).filter Event.isSetTexture = []) ∧
    (∀ i t, (model.textures mesh.material_id)[i]? = some t →
      ((model.textures mesh.material_id).enum.map
        (fun it => Event.SetTexture n it.1 it.2))[i]? = some (Event.SetTexture n i t)) ∧
    (∀ i q, (model.properties mesh.material_id)[i]? = some q →
      ((model.properties mesh.material_id).enum.map
        (fun ip => Event.SetUniform n (ip.1 + 100) (UniformValue.property ip.2)))[i]?
        = some (Event.SetUniform n (i + 100) (UniformValue.property q))) ∧
    ∃ t, (Render ops s).trace = (renderBody ops s).trace ++ t := by
  have hb := (renderBody_model ops s n post model transform hq hnot hin hmodel htr).1
  have hf := front_entry ops s (Entity.id n) post hq
  refine ⟨?_, drawn_flatMap_submeshCalls n model _ a, drawn_flatMap_submeshCalls n model _ b,
    ?_, ?_, ?_, ?_, hf.2.2.2⟩
  · rw [hb, modelCalls, hmeshes, List.flatMap_append, List.flatMap_cons]
    simp only [List.append_assoc]
  · intro hne
    have hpos : (model.textures mesh.material_id).length > 0 := List.length_pos.mpr hne
    have hup : uploadCalls n model mesh.material_id
        = (model.textures mesh.material_id).enum.map
            (fun it => Event.SetTexture n it.1 it.2) := by
      simp [uploadCalls, hpos, textureCalls]
    have hseg : submeshCalls n model s.front_face mesh =
        Event.SetUniform n 2 (UniformValue.int (static_cast_int mesh.material_id)) ::
          ((model.textures mesh.material_id).enum.map
              (fun it => Event.SetTexture n it.1 it.2) ++
            [Event.Bind n, Event.Draw mesh s.front_face]) := by
      rw [submeshCalls, hup]
    refine ⟨hseg, ?_, ?_⟩
    · have hT := filter_map_of_forall Event.isSetTexture
        (fun it : Nat × Texture => Event.SetTexture n it.1 it.2)
        (model.textures mesh.material_id).enum (fun _ => rfl)
      rw [hseg, List.filter_cons, List.filter_append, hT]
      simp [Event.isSetTexture]
    · rw [hseg]
      simp [List.filter_append, Event.isPropertyUniform, List.filter_map,
        List.filter_eq_nil_iff]
  · intro hnil
    have hup : uploadCalls n model mesh.material_id
        = (model.properties mesh.material_id).enum.map
            (fun ip => Event.SetUniform n (ip.1 + 100) (UniformValue.property ip.2)) := by
      simp [uploadCalls, hnil, propertyCalls]
    have hseg : submeshCalls n model s.front_face mesh =
        Event.SetUniform n 2 (UniformValue.int (static_cast_int mesh.material_id)) ::
          ((model.properties mesh.material_id).enum.map
              (fun ip => Event.SetUniform n (ip.1 + 100) (UniformValue.property ip.2)) ++
            [Event.Bind n, Event.Draw mesh s.front_face]) := by
      rw [submeshCalls, hup]
    refine ⟨hseg, ?_, ?_⟩
    · have hP := filter_map_of_forall Event.isPropertyUniform
        (fun ip : Nat × Property =>
          Event.SetUniform n (ip.1 + 100) (UniformValue.property ip.2))
        (model.properties mesh.material_id).enum
        (fun _ => by simp [Event.isPropertyUniform])
      rw [hseg, List.filter_cons, List.filter_append, hP]
      simp [Event.isPropertyUniform]
    · rw [hseg]
      simp [List.filter_append, Event.isSetTexture, List.filter_map,
        List.filter_eq_nil_iff]
  · intro i t hi
    simp [List.getElem?_map, List.getElem?_enum, hi]
  · intro i q hi
    simp [List.getElem?_map, List.getElem?_enum, hi]

/-- C5 at the second submesh of `sampleModel` (entity 1 of `sampleRegistry`): the calls of the
entry, call by call.  The first submesh (material id 0) has a texture, bound at unit 0;
the second has no texture under its material id 1, so its two properties go to
locations 100 and 101. -/
theorem C5_textures_take_precedence_witness :
    (renderBody flagOps (sampleState [Entity.id 1] Winding.GL_CCW)).trace =
      [Event.SetUniform 1 0 (UniformValue.bool false),
        Event.SetUniform 1 1 (UniformValue.mat4 4),
        Event.SetUniform 1 2 (UniformValue.int 0),
        Event.SetTexture 1 0 ⟨7⟩,
        Event.Bind 1,
        Event.Draw ⟨10, 0⟩ Winding.GL_CCW,
        Event.SetUniform 1 2 (UniformValue.int 1),
        Event.SetUniform 1 100 (UniformValue.property ⟨5⟩),
        Event.SetUniform 1 101 (UniformValue.property ⟨6⟩),
        Event.Bind 1,
        Event.Draw ⟨11, 1⟩ Winding.GL_CCW,
        Event.Unbind 1] ∧
    (sampleModel.textures 1 = [] →
      submeshCalls 1 sampleModel Winding.GL_CCW ⟨11, 1⟩ =
        Event.SetUniform 1 2 (UniformValue.int (static_cast_int 1)) ::
          ((sampleModel.properties 1).enum.map
              (fun ip => Event.SetUniform 1 (ip.1 + 100) (UniformValue.property ip.2)) ++
            [Event.Bind 1, Event.Draw ⟨11, 1⟩ Winding.GL_CCW]) ∧
      (submeshCalls 1 sampleModel Winding.GL_CCW ⟨11, 1⟩).filter Event.isPropertyUniform =
        (sampleModel.properties 1).enum.map
          (fun ip => Event.SetUniform 1 (ip.1 + 100) (UniformValue.property ip.2)) ∧
      (submeshCalls 1 sampleModel Winding.GL_CCW ⟨11, 1⟩).filter Event.isSetTexture = []) :=
  have h := C5_textures_take_precedence flagOps (sampleState [Entity.id 1] Winding.GL_CCW) 1 []
    sampleModel ⟨4⟩ [⟨10, 0⟩] [] ⟨11, 1⟩ rfl rfl rfl rfl rfl rfl
  ⟨h.1.trans (by decide), h.2.2.2.2.1⟩

/-! ## Claims on the mesh branch -/

/-- C3, refuted as stated: entity 3 of `sampleRegistry` carries `Mesh`, `Transform`, `Tag` and
`Material` and no `Model`, its material does not bind, and `Render` issues no draw call
and no unbind for it: the calls stop after `Bind`. -/
theorem C3_counterexample :
    mesh_group_contains (sampleRegistry 3) = true ∧
    (sampleRegistry 3).model.isNone = true ∧
    (Render flagOps (sampleState [Entity.id 3] Winding.GL_CCW)).trace
      = [Event.SetUniform 3 0 (UniformValue.bool false),
          Event.SetUniform 3 1 (UniformValue.mat4 6),
          Event.SetUniform 3 2 (UniformValue.int 0), Event.Bind 3] := by
  decide

/-- C3, amended.  For an entity of the mesh group at the front of the queue (with or
without a `Model`), with `m` the state of its material: the entry uploads uniforms 0
and 1, uploads zero at location 2 and calls `Bind`, on the state `meshBindInput`.  When
`Bind` returns true there follow exactly one draw call and then the unbind (between the
two `SetFrontFace` calls for a skybox); when it returns false nothing follows: no draw
call, no unbind.  The entry is then popped and `Render` goes on. -/
theorem C3_mesh_draws_when_bound (ops : MaterialOps M) (s : RenderState M) (n : Nat)
    (post : List Entity) (mesh : Mesh) (transform : Transform) (tag : ETag) (m : M)
    (hq : s.render_queue = Entity.id n :: post)
    (hmesh : (s.registry n).mesh = some mesh)
    (htr : (s.registry n).transform = some transform)
    (htag : (s.registry n).tag = some tag)
    (hmat : (s.registry n).material = some m) :
    ((ops.Bind (meshBindInput ops s.depth_prepass transform m)).1 = true →
      tag ≠ ETag.Skybox →
      (renderBody ops s).trace = s.trace ++
        [Event.SetUniform n 0 (UniformValue.bool s.depth_prepass),
          Event.SetUniform n 1 (UniformValue.mat4 transform.transform),
          Event.SetUniform n 2 (UniformValue.int 0), Event.Bind n,
          Event.Draw mesh s.front_face, Event.Unbind n]) ∧
    ((ops.Bind (meshBindInput ops s.depth_prepass transform m)).1 = true →
      tag = ETag.Skybox →
      (renderBody ops s).trace = s.trace ++
        [Event.SetUniform n 0 (UniformValue.bool s.depth_prepass),
          Event.SetUniform n 1 (UniformValue.mat4 transform.transform),
          Event.SetUniform n 2 (UniformValue.int 0), Event.Bind n,
          Event.glFrontFace Winding.GL_CW, Event.Draw mesh Winding.GL_CW,
          Event.glFrontFace Winding.GL_CCW, Event.Unbind n]) ∧
    ((ops.Bind (meshBindInput ops s.depth_prepass transform m)).1 = false →
      (renderBody ops s).trace = s.trace ++
        [Event.SetUniform n 0 (UniformValue.bool s.depth_prepass),
          Event.SetUniform n 1 (UniformValue.mat4 transform.transform),
          Event.SetUniform n 2 (UniformValue.int 0), Event.Bind n]) ∧
    (renderBody ops s).render_queue = post ∧
    Render ops (renderBody ops s) = Render ops s ∧
    ∃ t, (Render ops s).trace = (renderBody ops s).trace ++ t := by
  have hf := front_entry ops s (Entity.id n) post hq
  have ha := appends_renderMesh ops n mesh transform tag s m hmat
  have hd := dispatch_mesh ops n s hmesh htr htag (by simp [hmat])
  have ht : (renderBody ops s).trace = (renderMesh ops n mesh transform tag s).trace := by
    rw [renderBody_cons ops s _ post hq]
    simp only [renderEntry, hd]
    rfl
  rw [ht, ha.trace_eq]
  refine ⟨?_, ?_, ?_, hf.1, hf.2.2.1, ?_⟩
  · intro hok htag'
    simp [meshCalls, meshPrologue, hok, htag']
  · intro hok htag'
    simp [meshCalls, meshPrologue, hok, htag']
  · intro hok
    simp [meshCalls, meshPrologue, hok]
  · obtain ⟨t, h⟩ := hf.2.2.2
    exact ⟨t, by rw [h, ht, ha.trace_eq]⟩

/-- C3 at entity 0 of `sampleRegistry`, whose material binds: one draw call, then the unbind. -/
theorem C3_mesh_draws_when_bound_witness :
    (renderBody flagOps (sampleState [Entity.id 0] Winding.GL_CCW)).trace =
      [] ++ [Event.SetUniform 0 0 (UniformValue.bool false),
        Event.SetUniform 0 1 (UniformValue.mat4 3),
        Event.SetUniform 0 2 (UniformValue.int 0), Event.Bind 0,
        Event.Draw ⟨1, 0⟩ Winding.GL_CCW, Event.Unbind 0] :=
  (C3_mesh_draws_when_bound flagOps (sampleState [Entity.id 0] Winding.GL_CCW) 0 []
    ⟨1, 0⟩ ⟨3⟩ (ETag.other 0) true rfl rfl rfl rfl rfl).1 rfl (by decide)

/-- C6, the code at its failing input.  With the winding set clockwise beforehand, `Render` on
the skybox mesh entity 2 of `sampleRegistry` draws it under the clockwise winding, the
one already in effect and not its inverse, and leaves the winding counter-clockwise:
the prior value is not restored. -/
theorem C6_skybox_winding_not_restored :
    (sampleRegistry 2).tag = some ETag.Skybox ∧
    (SetFrontFace false (sampleState [Entity.id 2] Winding.GL_CCW)).front_face
      = Winding.GL_CW ∧
    (Render flagOps (sampleState [Entity.id 2] Winding.GL_CW)).trace.filter Event.isDraw
      = [Event.Draw ⟨2, 0⟩ Winding.GL_CW] ∧
    (Render flagOps (sampleState [Entity.id 2] Winding.GL_CW)).front_face
      = Winding.GL_CCW := by
  decide

/-- C7 at the queue `[9, 0]` over `sampleRegistry`, where handle 9 carries no component. -/
theorem C7_non_renderable_entity_witness :
    renderBody flagOps (sampleState [Entity.id 9, Entity.id 0] Winding.GL_CCW) =
      { sampleState [Entity.id 9, Entity.id 0] Winding.GL_CCW with
        render_queue := [Entity.id 0]
        popped := [] ++ [Entity.id 9]
        trace := [] ++ [Event.CORE_ERROR (Entity.id 9), Event.glClearColor 0 0 1 1,
          Event.glClearDepth 1, Event.glClearStencil 0, Event.glClear] } :=
  (C7_non_renderable_entity flagOps (sampleState [Entity.id 9, Entity.id 0] Winding.GL_CCW)
    9 [Entity.id 0] rfl rfl rfl).1

/-! ## Scene lifecycle -/

theorem heap_get_new (h : List SceneObject) (x : SceneObject) :
    (h ++ [x])[h.length]? = some x := by
  simp

theorem heap_set_new (h : List SceneObject) (x y : SceneObject) :
    (h ++ [x]).set h.length y = h ++ [y] := by
  simp [List.set_append]

theorem heap_get_old (h : List SceneObject) (x o : SceneObject) (ptr : Nat)
    (ho : h[ptr]? = some o) : (h ++ [x])[ptr]? = some o := by
  have hlt : ptr < h.length := (List.getElem?_eq_some_iff.mp ho).1
  rw [List.getElem?_append_left hlt]
  exact ho

/-- The states `Attach(title)` passes through when `title` is registered. -/
theorem snapshots_Attach (load : String → Option SceneClass) (title : String)
    (cls : SceneClass) (p : Process)
    (hs : p.status = Status.running) (hload : load title = some cls) :
    snapshots load (Attach_body title) p =
      [p,
       { p with calls := p.calls ++ [Call.CORE_TRACE_attaching title] },
       { p with calls := p.calls ++ [Call.CORE_TRACE_attaching title, Call.Input_Clear] },
       { p with calls := p.calls ++ [Call.CORE_TRACE_attaching title, Call.Input_Clear,
          Call.Input_ShowCursor] },
       { p with calls := p.calls ++ [Call.CORE_TRACE_attaching title, Call.Input_Clear,
          Call.Input_ShowCursor, Call.Window_Rename title] },
       { p with
          layer := Layer.ImGui
          calls := p.calls ++ [Call.CORE_TRACE_attaching title, Call.Input_Clear,
            Call.Input_ShowCursor, Call.Window_Rename title] },
       { p with
          layer := Layer.ImGui
          heap := p.heap ++ [⟨cls, title, 0, false⟩]
          new_scene := some p.heap.length
          calls := p.calls ++ [Call.CORE_TRACE_attaching title, Call.Input_Clear,
            Call.Input_ShowCursor, Call.Window_Rename title,
            Call.new_Scene p.heap.length cls title] },
       { p with
          layer := Layer.ImGui
          heap := p.heap ++ [⟨cls, title, 1, false⟩]
          new_scene := some p.heap.length
          calls := p.calls ++ [Call.CORE_TRACE_attaching title, Call.Input_Clear,
            Call.Input_ShowCursor, Call.Window_Rename title,
            Call.new_Scene p.heap.length cls title, Call.Init p.heap.length] },
       { p with
          layer := Layer.ImGui
          heap := p.heap ++ [⟨cls, title, 1, false⟩]
          new_scene := some p.heap.length
          curr_scene := some p.heap.length
          calls := p.calls ++ [Call.CORE_TRACE_attaching title, Call.Input_Clear,
            Call.Input_ShowCursor, Call.Window_Rename title,
            Call.new_Scene p.heap.length cls title, Call.Init p.heap.length] }] := by
  simp [snapshots, Attach_body, exec, hs, hload, Process.call, Process.onObject,
    heap_get_new, heap_set_new]

/-- The states `Attach(title)` passes through when `title` is not registered: the process
exits inside `LoadScene`, and nothing is executed after that. -/
theorem snapshots_Attach_unregistered (load : String → Option SceneClass) (title : String)
    (p : Process) (hs : p.status = Status.running) (hload : load title = none) :
    snapshots load (Attach_body title) p =
      [p,
       { p with calls := p.calls ++ [Call.CORE_TRACE_attaching title] },
       { p with calls := p.calls ++ [Call.CORE_TRACE_attaching title, Call.Input_Clear] },
       { p with calls := p.calls ++ [Call.CORE_TRACE_attaching title, Call.Input_Clear,
          Call.Input_ShowCursor] },
       { p with calls := p.calls ++ [Call.CORE_TRACE_attaching title, Call.Input_Clear,
          Call.Input_ShowCursor, Call.Window_Rename title] },
       { p with
          layer := Layer.ImGui
          calls := p.calls ++ [Call.CORE_TRACE_attaching title, Call.Input_Clear,
            Call.Input_ShowCursor, Call.Window_Rename title] },
       { p with
          layer := Layer.ImGui
          status := Status.exited
          calls := p.calls ++ [Call.CORE_TRACE_attaching title, Call.Input_Clear,
            Call.Input_ShowCursor, Call.Window_Rename title,
            Call.CORE_ERROR (not_registered_line title), Call.cin_get, Call.exit_failure] },
       { p with
          layer := Layer.ImGui
          status := Status.exited
          calls := p.calls ++ [Call.CORE_TRACE_attaching title, Call.Input_Clear,
            Call.Input_ShowCursor, Call.Window_Rename title,
            Call.CORE_ERROR (not_registered_line title), Call.cin_get, Call.exit_failure] },
       { p with
          layer := Layer.ImGui
          status := Status.exited
          calls := p.calls ++ [Call.CORE_TRACE_attaching title, Call.Input_Clear,
            Call.Input_ShowCursor, Call.Window_Rename title,
            Call.CORE_ERROR (not_registered_line title), Call.cin_get, Call.exit_failure] }] := by
  simp [snapshots, Attach_body, exec, hs, hload, Process.call]

/-- A process that no longer runs stays as it is. -/
theorem snapshots_stopped (load : String → Option SceneClass) (p : Process)
    (hs : p.status ≠ Status.running) :
    ∀ l : List Stmt, ∀ q ∈ snapshots load l p, q = p := by
  intro l
  induction l with
  | nil => intro q hq; simpa [snapshots] using hq
  | cons st l ih =>
    intro q hq
    have he : exec load st p = p := by simp [exec, hs]
    simp only [snapshots, he, List.mem_cons] at hq
    rcases hq with h | h
    · exact h
    · exact ih q h

/-- The states `Detach()` passes through when there is a current scene. -/
theorem snapshots_Detach (load : String → Option SceneClass) (p : Process) (old : Nat)
    (o : SceneObject) (hs : p.status = Status.running) (hc : p.curr_scene = some old)
    (ho : p.heap[old]? = some o) :
    snapshots load Detach_body p =
      [p,
       { p with calls := p.calls ++ [Call.CORE_TRACE_detaching o.title] },
       { p with
          last_scene := some old
          calls := p.calls ++ [Call.CORE_TRACE_detaching o.title] },
       { p with
          last_scene := some old
          curr_scene := none
          calls := p.calls ++ [Call.CORE_TRACE_detaching o.title] },
       { p with
          last_scene := some old
          curr_scene := none
          heap := p.heap.set old { o with deleted := true }
          calls := p.calls ++ [Call.CORE_TRACE_detaching o.title, Call.delete old] },
       { p with
          last_scene := none
          curr_scene := none
          heap := p.heap.set old { o with deleted := true }
          calls := p.calls ++ [Call.CORE_TRACE_detaching o.title, Call.delete old] }] := by
  simp [snapshots, Detach_body, exec, hs, hc, ho, Process.call, Process.onObject]

/-- `Detach()` without a current scene to read the title of: undefined from the first line. -/
theorem snapshots_Detach_undefined (load : String → Option SceneClass) (p : Process)
    (hs : p.status = Status.running)
    (hc : p.curr_scene = none ∨ ∃ old, p.curr_scene = some old ∧ p.heap[old]? = none) :
    ∀ q ∈ snapshots load Detach_body p, q = p ∨ q = { p with status := Status.undefined } := by
  have h : snapshots load Detach_body p =
      [p, { p with status := Status.undefined }, { p with status := Status.undefined },
        { p with status := Status.undefined }, { p with status := Status.undefined },
        { p with status := Status.undefined }] := by
    rcases hc with hc | ⟨old, hc, ho⟩
    · simp [snapshots, Detach_body, exec, hs, hc]
    · simp [snapshots, Detach_body, exec, hs, hc, ho]
  intro q hq
  rw [h] at hq
  simp only [List.mem_cons, List.mem_singleton, List.not_mem_nil, or_false] at hq
  rcases hq with h | h | h | h | h | h <;> simp [h]

theorem mem_snapshots_run (load : String → Option SceneClass) :
    ∀ (l : List Stmt) (p : Process), run load l p ∈ snapshots load l p := by
  intro l
  induction l with
  | nil => intro p; simp [run, snapshots]
  | cons st l ih =>
    intro p
    simp only [snapshots, List.mem_cons]
    exact Or.inr (ih (exec load st p))

theorem snapshots_append (load : String → Option SceneClass) :
    ∀ (l₁ l₂ : List Stmt) (p : Process),
      snapshots load (l₁ ++ l₂) p
        = snapshots load l₁ p ++ (snapshots load l₂ (run load l₁ p)).tail := by
  intro l₁
  induction l₁ with
  | nil =>
    intro l₂ p
    cases l₂ <;> simp [snapshots, run]
  | cons st l₁ ih =>
    intro l₂ p
    have h := ih l₂ (exec load st p)
    show p :: snapshots load (l₁ ++ l₂) (exec load st p) = _
    rw [h]
    rfl

/-- `Attach` keeps the current-scene reference null or initialized in every state it
passes through, whatever the title. -/
theorem currentInitialized_Attach (load : String → Option SceneClass) (title : String)
    (p : Process) (hinv : currentInitialized p) :
    ∀ q ∈ snapshots load (Attach_body title) p, currentInitialized q := by
  intro q hq
  by_cases hs : p.status = Status.running
  · have hold : ∀ (x : SceneObject) (q : Process), q.curr_scene = p.curr_scene →
        q.heap = p.heap ++ [x] → currentInitialized q := by
      intro x q hc hh ptr hptr
      obtain ⟨o, ho, hi⟩ := hinv ptr (hc ▸ hptr)
      exact ⟨o, by rw [hh]; exact heap_get_old _ _ _ _ ho, hi⟩
    have hsame : ∀ q : Process, q.curr_scene = p.curr_scene → q.heap = p.heap →
        currentInitialized q := by
      intro q hc hh ptr hptr
      obtain ⟨o, ho, hi⟩ := hinv ptr (hc ▸ hptr)
      exact ⟨o, by rw [hh]; exact ho, hi⟩
    cases hload : load title with
    | none =>
      rw [snapshots_Attach_unregistered load title p hs hload] at hq
      simp only [List.mem_cons, List.mem_singleton, List.not_mem_nil, or_false] at hq
      rcases hq with h | h | h | h | h | h | h | h | h <;> subst h <;> exact hsame _ rfl rfl
    | some cls =>
      rw [snapshots_Attach load title cls p hs hload] at hq
      simp only [List.mem_cons, List.mem_singleton, List.not_mem_nil, or_false] at hq
      rcases hq with h | h | h | h | h | h | h | h | h
      · subst h; exact hinv
      · subst h; exact hsame _ rfl rfl
      · subst h; exact hsame _ rfl rfl
      · subst h; exact hsame _ rfl rfl
      · subst h; exact hsame _ rfl rfl
      · subst h; exact hsame _ rfl rfl
      · subst h; exact hold _ _ rfl rfl
      · subst h; exact hold _ _ rfl rfl
      · subst h
        intro ptr hptr
        have : ptr = p.heap.length := by
          simp only [Option.some.injEq] at hptr
          exact hptr.symm
        subst this
        exact ⟨⟨cls, title, 1, false⟩, heap_get_new _ _, rfl, rfl⟩
  · have := snapshots_stopped load p hs (Attach_body title) q hq
    rw [this]; exact hinv

/-- `Detach` keeps the current-scene reference null or initialized in every state it
passes through: the reference is cleared before the scene is destroyed. -/
theorem currentInitialized_Detach (load : String → Option SceneClass)
    (p : Process) (hinv : currentInitialized p) :
    ∀ q ∈ snapshots load Detach_body p, currentInitialized q := by
  intro q hq
  by_cases hs : p.status = Status.running
  · have hsame : ∀ q : Process, q.curr_scene = p.curr_scene → q.heap = p.heap →
        currentInitialized q := by
      intro q hc hh ptr hptr
      obtain ⟨o, ho, hi⟩ := hinv ptr (hc ▸ hptr)
      exact ⟨o, by rw [hh]; exact ho, hi⟩
    have hnull : ∀ q : Process, q.curr_scene = none → currentInitialized q := by
      intro q hc ptr hptr
      rw [hc] at hptr
      cases hptr
    cases hc : p.curr_scene with
    | none =>
      rcases snapshots_Detach_undefined load p hs (Or.inl hc) q hq with h | h
      · rw [h]; exact hinv
      · rw [h]; exact hsame _ rfl rfl
    | some old =>
      cases ho : p.heap[old]? with
      | none =>
        rcases snapshots_Detach_undefined load p hs (Or.inr ⟨old, hc, ho⟩) q hq with h | h
        · rw [h]; exact hinv
        · rw [h]; exact hsame _ rfl rfl
      | some o =>
        rw [snapshots_Detach load p old o hs hc ho] at hq
        simp only [List.mem_cons, List.mem_singleton, List.not_mem_nil, or_false] at hq
        rcases hq with h | h | h | h | h | h
        · subst h; exact hinv
        · subst h; exact hsame _ rfl rfl
        · subst h; exact hsame _ rfl rfl
        · subst h; exact hnull _ rfl
        · subst h; exact hnull _ rfl
        · subst h; exact hnull _ rfl
  · have := snapshots_stopped load p hs Detach_body q hq
    rw [this]; exact hinv

/-- Every state in which `Attach` or `Detach` is entered has its current-scene reference
null or initialized. -/
theorem currentInitialized_of_reachable (load : String → Option SceneClass) (p : Process)
    (h : Reachable load p) : currentInitialized p := by
  induction h with
  | start => intro ptr hptr; cases hptr
  | attach title p _ ih =>
    exact currentInitialized_Attach load title p ih _ (mem_snapshots_run load _ p)
  | detach p _ ih =>
    exact currentInitialized_Detach load p ih _ (mem_snapshots_run load _ p)

/-- C9, refuted as stated: `DrawImGui` switching from the welcome screen to the tiled forward
renderer, a title `scene/factory.h` registers.
The current-scene reference is null in ten of the states passed through, from the
third line of `Detach` until the last line of `Attach`; the old scene (pointer 0) is
deleted before the new one (pointer 1) is even constructed. -/
theorem C9_counterexample :
    (snapshots LoadScene (DrawImGui_body "Tiled Forward Renderer") welcomeProcess).map
        (fun q => q.curr_scene)
      = [some 0, some 0, some 0, some 0, some 0, some 0, some 0, some 0, some 0, some 0,
          none, none, none, none, none, none, none, none, none, none, some 1] ∧
    (snapshots LoadScene (DrawImGui_body "Tiled Forward Renderer") welcomeProcess).map
        (fun q => q.heap.map (fun o => o.deleted))
      = [[false], [false], [false], [false], [false], [false], [false], [false], [false],
          [false], [false], [true], [true], [true], [true], [true], [true], [true],
          [true, false], [true, false], [true, false]] := by
  decide

/-- C9, amended.  In a scene switch (`Detach()` then `Attach(title)`, as `DrawImGui` runs them
once the frame is flushed) from a live current scene `old` to a registered title, the
current-scene reference is `old` up to the third line of `Detach`, which clears it;
only then is the old scene deleted.  The reference stays null through the rest of
`Detach` and all of `Attach` until its last line, where it becomes the new scene, a
fresh object on which `Init` has returned one line before.  So the reference is null
during the switch, and never refers to a destroyed or uninitialized scene. -/
theorem C9_switch_clears_then_assigns (load : String → Option SceneClass) (title : String)
    (cls : SceneClass) (p : Process) (old : Nat) (o : SceneObject)
    (hs : p.status = Status.running) (hc : p.curr_scene = some old)
    (ho : p.heap[old]? = some o) (halive : o.deleted = false)
    (hload : load title = some cls) (hne : title ≠ "") :
    DrawImGui_body title =
      [Stmt.ui_NewFrame, Stmt.ui_DrawMenuBar, Stmt.ui_DrawStatusBar, Stmt.Clear,
        Stmt.ui_DrawLoadingScreen, Stmt.ui_EndFrame, Stmt.Flush] ++
        (Detach_body ++ Attach_body title) ∧
    (snapshots load (Detach_body ++ Attach_body title) p).map (fun q => q.curr_scene)
      = [some old, some old, some old, none, none, none, none, none, none, none, none, none,
          none, some p.heap.length] ∧
    (snapshots load (Detach_body ++ Attach_body title) p).map
        (fun q => (q.heap[old]?).map (fun x => x.deleted))
      = [some false, some false, some false, some false, some true, some true, some true,
          some true, some true, some true, some true, some true, some true, some true] ∧
    (snapshots load (Detach_body ++ Attach_body title) p).map
        (fun q => (q.heap[p.heap.length]?).map (fun x => x.inits))
      = [none, none, none, none, none, none, none, none, none, none, none, some 0, some 1,
          some 1] := by
  have hlt : old < p.heap.length := (List.getElem?_eq_some_iff.mp ho).1
  have hrun : run load Detach_body p =
      { p with
        last_scene := none
        curr_scene := none
        heap := p.heap.set old { o with deleted := true }
        calls := p.calls ++ [Call.CORE_TRACE_detaching o.title, Call.delete old] } := by
    simp [run, Detach_body, exec, hs, hc, ho, Process.call, Process.onObject]
  have hA := snapshots_Attach load title cls (run load Detach_body p)
    (by rw [hrun]; exact hs) hload
  refine ⟨by simp [DrawImGui_body, hne], ?_, ?_, ?_⟩
  · rw [snapshots_append, hA, snapshots_Detach load p old o hs hc ho, hrun]
    simp [hc]
  · rw [snapshots_append, hA, snapshots_Detach load p old o hs hc ho, hrun]
    simp [ho, halive, hlt, List.getElem?_append_left]
  · rw [snapshots_append, hA, snapshots_Detach load p old o hs hc ho, hrun]
    simp

/-- C9 at the switch from the welcome screen to the tiled forward renderer. -/
theorem C9_switch_clears_then_assigns_witness :
    (snapshots LoadScene (Detach_body ++ Attach_body "Tiled Forward Renderer") welcomeProcess).map
        (fun q => q.curr_scene)
      = [some 0, some 0, some 0, none, none, none, none, none, none, none, none, none,
          none, some 1] :=
  (C9_switch_clears_then_assigns LoadScene "Tiled Forward Renderer" SceneClass.Scene01 welcomeProcess 0
    ⟨SceneClass.Scene, "Welcome Screen", 1, false⟩ rfl rfl rfl rfl (by decide)
    (by decide)).2.1

/-- C10. For a title the factory accepts, `Attach(title)` makes its calls in this order: the
trace line, `Input::Clear`, `Input::ShowCursor`, `Window::Rename(title)`, then the
construction of the new scene, then one `Init` on it.  After the first five lines the
layer is `ImGui` and no scene has been constructed.  The current-scene reference keeps
its old value in every state but the last, where it is the new scene, of the class the
factory chose, titled `title`, alive, with `Init` returned exactly once.  In every
state that `Attach` or a following `Detach` passes through, and in every state
reachable through `Attach` and `Detach`, the reference is null or initialized. -/
theorem C10_attach_initializes_before_assigning (load : String → Option SceneClass)
    (title : String) (cls : SceneClass) (p : Process)
    (hs : p.status = Status.running) (hload : load title = some cls)
    (hinv : currentInitialized p) :
    (Attach load title p).calls = p.calls ++
      [Call.CORE_TRACE_attaching title, Call.Input_Clear, Call.Input_ShowCursor,
        Call.Window_Rename title, Call.new_Scene p.heap.length cls title,
        Call.Init p.heap.length] ∧
    run load ((Attach_body title).take 5) p =
      { p with
        layer := Layer.ImGui
        calls := p.calls ++ [Call.CORE_TRACE_attaching title, Call.Input_Clear,
          Call.Input_ShowCursor, Call.Window_Rename title] } ∧
    (snapshots load (Attach_body title) p).map (fun q => q.curr_scene)
      = [p.curr_scene, p.curr_scene, p.curr_scene, p.curr_scene, p.curr_scene, p.curr_scene,
          p.curr_scene, p.curr_scene, some p.heap.length] ∧
    (snapshots load (Attach_body title) p).map
        (fun q => (q.heap[p.heap.length]?).map (fun x => x.inits))
      = [none, none, none, none, none, none, some 0, some 1, some 1] ∧
    (Attach load title p).curr_scene = some p.heap.length ∧
    (Attach load title p).heap = p.heap ++ [⟨cls, title, 1, false⟩] ∧
    (Attach load title p).status = Status.running ∧
    (∀ q ∈ snapshots load (Attach_body title) p, currentInitialized q) ∧
    (∀ q ∈ snapshots load Detach_body (Attach load title p), currentInitialized q) ∧
    ∀ r, Reachable load r → currentInitialized r := by
  have hA := snapshots_Attach load title cls p hs hload
  have hrun : Attach load title p =
      { p with
        layer := Layer.ImGui
        heap := p.heap ++ [⟨cls, title, 1, false⟩]
        new_scene := some p.heap.length
        curr_scene := some p.heap.length
        calls := p.calls ++ [Call.CORE_TRACE_attaching title, Call.Input_Clear,
          Call.Input_ShowCursor, Call.Window_Rename title,
          Call.new_Scene p.heap.length cls title, Call.Init p.heap.length] } := by
    simp [Attach, run, Attach_body, exec, hs, hload, Process.call, Process.onObject,
      heap_get_new, heap_set_new]
  have hinvA := currentInitialized_Attach load title p hinv
  refine ⟨by rw [hrun], ?_, by rw [hA]; simp, by rw [hA]; simp, by rw [hrun], by rw [hrun],
    by rw [hrun]; exact hs, hinvA, ?_, currentInitialized_of_reachable load⟩
  · simp [run, Attach_body, exec, hs, Process.call]
  · exact currentInitialized_Detach load _ (hinvA _ (mem_snapshots_run load _ p))

/-- C10 at the first attach of the program: the welcome screen, from the start state. -/
theorem C10_attach_initializes_before_assigning_witness :
    (Attach LoadScene "Welcome Screen" Process.start).calls = [] ++
      [Call.CORE_TRACE_attaching "Welcome Screen", Call.Input_Clear, Call.Input_ShowCursor,
        Call.Window_Rename "Welcome Screen", Call.new_Scene 0 SceneClass.Scene "Welcome Screen",
        Call.Init 0] ∧
    (Attach LoadScene "Welcome Screen" Process.start).curr_scene = some 0 ∧
    (Attach LoadScene "Welcome Screen" Process.start).heap
      = [] ++ [⟨SceneClass.Scene, "Welcome Screen", 1, false⟩] :=
  have h := C10_attach_initializes_before_assigning LoadScene "Welcome Screen" SceneClass.Scene
    Process.start rfl (by decide) (fun _ hptr => nomatch hptr)
  ⟨h.1, h.2.2.2.2.1, h.2.2.2.2.2.1⟩

/-! ## The factory -/

theorem LoadScene_eq_none_iff (title : String) : LoadScene title = none ↔ title ∉ titles := by
  unfold LoadScene titles
  simp only [List.mem_cons, List.mem_singleton, List.not_mem_nil, or_false]
  split_ifs <;> simp_all

/-- C11. From a running process, `Attach(title)` ends in `exit(EXIT_FAILURE)` exactly when
`factory::LoadScene` (the inline function of `scene/factory.h`) accepts no such title,
which is exactly when the title is not listed in `factory::titles`.  For such a title
the calls are the trace line and the three side effects, then `CORE_ERROR` with the line
`not_registered_line title` (it holds the title), the `std::cin.get()` and the exit; the
current-scene reference and the heap are the same in every state passed through:
nothing is assigned.  For a listed title `LoadScene` constructs a new scene object of
some class under that title and the process keeps running, through the end of
`Attach`. -/
theorem C11_attach_exits_iff_unregistered (title : String) (p : Process)
    (hs : p.status = Status.running) :
    ((Attach LoadScene title p).status = Status.exited ↔ LoadScene title = none) ∧
    (LoadScene title = none ↔ title ∉ titles) ∧
    (LoadScene title = none →
      (Attach LoadScene title p).calls = p.calls ++
        [Call.CORE_TRACE_attaching title, Call.Input_Clear, Call.Input_ShowCursor,
          Call.Window_Rename title, Call.CORE_ERROR (not_registered_line title), Call.cin_get,
          Call.exit_failure] ∧
      (∃ a b, not_registered_line title = a ++ title ++ b) ∧
      (Attach LoadScene title p).status = Status.exited ∧
      ∀ q ∈ snapshots LoadScene (Attach_body title) p,
        q.curr_scene = p.curr_scene ∧ q.heap = p.heap) ∧
    (title ∈ titles →
      ∃ cls, LoadScene title = some cls ∧
        exec LoadScene (Stmt.new_scene_LoadScene title) p =
          { p with
            heap := p.heap ++ [⟨cls, title, 0, false⟩]
            new_scene := some p.heap.length
            calls := p.calls ++ [Call.new_Scene p.heap.length cls title] } ∧
        (Attach LoadScene title p).status = Status.running) := by
  have hreg : ∀ cls, LoadScene title = some cls →
      (Attach LoadScene title p).status = Status.running := by
    intro cls hload
    simp [Attach, run, Attach_body, exec, hs, hload, Process.call, Process.onObject,
      heap_get_new, heap_set_new]
  have hunreg : LoadScene title = none →
      Attach LoadScene title p =
        { p with
          layer := Layer.ImGui
          status := Status.exited
          calls := p.calls ++ [Call.CORE_TRACE_attaching title, Call.Input_Clear,
            Call.Input_ShowCursor, Call.Window_Rename title,
            Call.CORE_ERROR (not_registered_line title), Call.cin_get, Call.exit_failure] } := by
    intro hload
    simp [Attach, run, Attach_body, exec, hs, hload, Process.call]
  refine ⟨?_, LoadScene_eq_none_iff title, ?_, ?_⟩
  · constructor
    · intro hex
      cases hload : LoadScene title with
      | none => rfl
      | some cls =>
        rw [hreg cls hload] at hex
        cases hex
    · intro hload
      rw [hunreg hload]
  · intro hload
    refine ⟨by rw [hunreg hload], ⟨"Scene \"", "\" is not registered in the factory ...", rfl⟩,
      by rw [hunreg hload], ?_⟩
    intro q hq
    rw [snapshots_Attach_unregistered LoadScene title p hs hload] at hq
    simp only [List.mem_cons, List.mem_singleton, List.not_mem_nil, or_false] at hq
    rcases hq with h | h | h | h | h | h | h | h | h <;> subst h <;> exact ⟨rfl, rfl⟩
  · intro hmem
    cases hload : LoadScene title with
    | none => exact absurd hmem ((LoadScene_eq_none_iff title).mp hload)
    | some cls =>
      refine ⟨cls, rfl, ?_, hreg cls hload⟩
      simp [exec, hs, hload]

/-- C11 at "Example Scene", a title `scene/factory.h` does not register, from the welcome
screen: the error line names the title, the process exits, and the current scene is
still the welcome screen, at pointer 0. -/
theorem C11_attach_exits_iff_unregistered_witness :
    ((Attach LoadScene "Example Scene" welcomeProcess).status = Status.exited ↔
      LoadScene "Example Scene" = none) ∧
    (Attach LoadScene "Example Scene" welcomeProcess).calls = [] ++
      [Call.CORE_TRACE_attaching "Example Scene", Call.Input_Clear, Call.Input_ShowCursor,
        Call.Window_Rename "Example Scene",
        Call.CORE_ERROR (not_registered_line "Example Scene"), Call.cin_get,
        Call.exit_failure] ∧
    (Attach LoadScene "Example Scene" welcomeProcess).status = Status.exited ∧
    (Attach LoadScene "Example Scene" welcomeProcess).curr_scene = some 0 :=
  have h := C11_attach_exits_iff_unregistered "Example Scene" welcomeProcess rfl
  have hu := h.2.2.1 (by decide)
  ⟨h.1, hu.1, hu.2.2.1,
    (hu.2.2.2 _ (mem_snapshots_run LoadScene (Attach_body "Example Scene") welcomeProcess)).1⟩

end Sketchpad
